import Mathlib

/-!
Verification development for the HS/HTS classification core of `src/app.py`
(an HS/HTS tariff-code suggestion tool).  The Python source is shallowly
embedded: its pure classification functions become Lean functions over `List`,
`String`, `Option` and `ℚ` (Python floats carry only small decimal constants
here, so exact rational arithmetic models them; Python dicts become
insertion-ordered association lists; early `return`s become `Option`
chaining).  The static data tables are embedded verbatim.  Theorems then
settle the specification's claims about the resolver, the scorer, fusion,
ranking and error handling.
-/

/- The Batteries rational primitives are marked irreducible, which leaves
concrete evaluations of the embedding stuck before reaching the kernel; the
development evaluates scores by `decide`, so restore the default
reducibility for them. -/
set_option allowUnsafeReducibility true
attribute [semireducible] Rat.add Rat.mul Rat.sub Rat.ofScientific

/- Concrete runs of the embedded pipeline are settled by `decide`; their
kernel evaluations recurse deeply over the corpus and the text. -/
set_option maxRecDepth 4000000

/-! ## String utilities mirroring the Python primitives -/

/-- Python `str.lower()` restricted to ASCII: every table key and every input
this development evaluates is ASCII or Japanese text, on which `lower` acts
exactly like this map (Japanese characters have no case). -/
def lowerChar (c : Char) : Char :=
  if 'A' ≤ c ∧ c ≤ 'Z' then Char.ofNat (c.toNat + 32) else c

/-- Lowercase a string, character by character. -/
def lowerStr (s : String) : String := ⟨s.data.map lowerChar⟩

/-- Python whitespace for `str.strip()`: space, tab, newline, carriage return,
vertical tab, form feed. -/
def isPySpace (c : Char) : Bool :=
  c = ' ' || c = '\t' || c = '\n' || c = '\r' || c.toNat = 11 || c.toNat = 12

/-- Python `str.strip()`: drop leading and trailing whitespace. -/
def trimStr (s : String) : String :=
  ⟨((s.data.dropWhile isPySpace).reverse.dropWhile isPySpace).reverse⟩

/-- Whether `needle` is a prefix of `hay` (character lists). -/
def startsWithL : List Char → List Char → Bool
  | [], _ => true
  | _ :: _, [] => false
  | a :: as, b :: bs => a = b && startsWithL as bs

/-- Python's substring test `needle in hay` on character lists. -/
def containsSubL (needle : List Char) : List Char → Bool
  | [] => startsWithL needle []
  | c :: rest => startsWithL needle (c :: rest) || containsSubL needle rest

/-- Python's substring test `needle in hay` on strings. -/
def containsSub (needle hay : String) : Bool := containsSubL needle.data hay.data

/-- Lowercase ASCII letter, the character class `[a-z]` of the word-boundary
regex in `_match_keyword`. -/
def isLowerAZ (c : Char) : Bool := 'a' ≤ c && c ≤ 'z'

/-- ASCII decimal digit. -/
def isAsciiDigit (c : Char) : Bool := '0' ≤ c && c ≤ '9'

/-- ASCII letter, either case. -/
def isAsciiAlpha (c : Char) : Bool := isLowerAZ c || ('A' ≤ c && c ≤ 'Z')

/-- Regex word character `\w` over ASCII: letter, digit or underscore. -/
def isWordChar (c : Char) : Bool := isAsciiAlpha c || isAsciiDigit c || c = '_'

/-- One position of the boundary-guarded search `(?<![a-z])kw(?![a-z])`:
the previous character (if any) is not a lowercase letter, `kw` starts here,
and the character following the occurrence (if any) is not a lowercase
letter. -/
def boundaryHitHere (kw l : List Char) (prevIsAlpha : Bool) : Bool :=
  !prevIsAlpha && startsWithL kw l &&
    (match (l.drop kw.length).head? with
     | none => true
     | some c => !isLowerAZ c)

/-- Search `(?<![a-z])kw(?![a-z])` anywhere in the text, as `re.search` does
for short keywords in `_match_keyword` (src/app.py lines 2716-2724). -/
def boundarySearch (kw : List Char) (prevIsAlpha : Bool) : List Char → Bool
  | [] => boundaryHitHere kw [] prevIsAlpha
  | c :: rest =>
      boundaryHitHere kw (c :: rest) prevIsAlpha ||
        boundarySearch kw (isLowerAZ c) rest

/-- Python `s.isascii()`. -/
def isAsciiStr (s : String) : Bool := s.data.all (fun c => c.toNat < 128)

/-- Python `s.isalpha()` on an ASCII string: nonempty and all letters. -/
def isAlphaStr (s : String) : Bool := !s.data.isEmpty && s.data.all isAsciiAlpha

/-- Embeds `_match_keyword` (src/app.py lines 2716-2724): short purely
alphabetic ASCII keywords need the `(?<![a-z])kw(?![a-z])` boundary match,
everything else is a plain substring test. -/
def match_keyword (kw_lower text_lower : String) : Bool :=
  if kw_lower.length ≤ 4 && isAsciiStr kw_lower && isAlphaStr kw_lower then
    boundarySearch kw_lower.data false text_lower.data
  else
    containsSub kw_lower text_lower

/-- Length of the leading run of ASCII digits. -/
def digitRun : List Char → Nat
  | [] => 0
  | c :: rest => if isAsciiDigit c then digitRun rest + 1 else 0

/-- Length of the leading run of ASCII letters (either case: the long
part-number regex carries `re.IGNORECASE`). -/
def letterRun : List Char → Nat
  | [] => 0
  | c :: rest => if isAsciiAlpha c then letterRun rest + 1 else 0

/-- Whether the next character (if any) is not a word character: the trailing
`\b` of the part-number regexes. -/
def boundaryAfter (l : List Char) : Bool :=
  match l.head? with
  | none => true
  | some c => !isWordChar c

/-- Whether `\d{3,6}-\d{2,4}-\d{2,4}\b` matches at the head of `l`
(`_PART_NUMBER_RE`, src/app.py line 1840).  Each digit run must fall in the
quantifier's range exactly: the regex's greedy matching with backtracking can
succeed only on the full run, since any shorter take leaves a digit where `-`
or a boundary is required. -/
def partNumHere (l : List Char) : Bool :=
  let d1 := digitRun l
  if 3 ≤ d1 && d1 ≤ 6 then
    match l.drop d1 with
    | '-' :: l2 =>
      let d2 := digitRun l2
      if 2 ≤ d2 && d2 ≤ 4 then
        match l2.drop d2 with
        | '-' :: l3 =>
          let d3 := digitRun l3
          2 ≤ d3 && d3 ≤ 4 && boundaryAfter (l3.drop d3)
        | _ => false
      else false
    | _ => false
  else false

/-- `re.search` of `_PART_NUMBER_RE`: try every position whose previous
character is not a word character (the leading `\b`). -/
def partNumSearch (prevIsWord : Bool) : List Char → Bool
  | [] => false
  | c :: rest =>
      (!prevIsWord && partNumHere (c :: rest)) || partNumSearch (isWordChar c) rest

/-- Whether `[A-Z]{0,3}\d{8,15}\b` (case-insensitive) matches at the head of
`l` (`_LONG_PARTNUM_RE`, src/app.py line 1841): at most three leading letters,
then a digit run of 8 to 15, then a non-word character or the end.  As above,
greedy matching forces the full runs. -/
def longPartNumHere (l : List Char) : Bool :=
  let lr := letterRun l
  if lr ≤ 3 then
    let l1 := l.drop lr
    let d := digitRun l1
    8 ≤ d && d ≤ 15 && boundaryAfter (l1.drop d)
  else false

/-- `re.search` of `_LONG_PARTNUM_RE`. -/
def longPartNumSearch (prevIsWord : Bool) : List Char → Bool
  | [] => false
  | c :: rest =>
      (!prevIsWord && longPartNumHere (c :: rest)) ||
        longPartNumSearch (isWordChar c) rest

/-- Python `s.split(">")` on character lists: separators kept as boundaries,
empty pieces preserved. -/
def splitChar (sep : Char) : List Char → List (List Char)
  | [] => [[]]
  | c :: rest =>
      let r := splitChar sep rest
      if c = sep then [] :: r
      else
        match r with
        | [] => [[c]]
        | h :: t => (c :: h) :: t

/-- Python `path.split(">")`. -/
def splitGt (s : String) : List String := (splitChar '>' s.data).map (fun l => ⟨l⟩)

/-- Python `path.split(">")[-1]` (`split` never returns an empty list, so the
default is never taken). -/
def lastSegD (s : String) : String := (splitGt s).getLastD ""

/-- First-match association-list lookup, the model of a Python dict lookup
(keys are unique, so first match is the binding). -/
def lookupStr (k : String) : List (String × String) → Option String
  | [] => none
  | (a, b) :: rest => if a = k then some b else lookupStr k rest

/-- The value of a string-valued Python `dict.get(k, "")`. -/
def getSpec (specifics : List (String × String)) (k : String) : String :=
  (lookupStr k specifics).getD ""

/-- Python `" ".join` and `" / ".join`: concatenate with a separator. -/
def joinSep (sep : String) : List String → String
  | [] => ""
  | [x] => x
  | x :: y :: rest => x ++ sep ++ joinSep sep (y :: rest)

/-- Stable insertion placing `x` before the first element it dominates:
with `ge x y := key y ≤ key x` this realises Python's stable
`sort(reverse=True)`. -/
def insertByDesc (ge : α → α → Bool) (x : α) : List α → List α
  | [] => [x]
  | y :: ys => if ge x y then x :: y :: ys else y :: insertByDesc ge x ys

/-- Stable descending insertion sort, the model of Python's
`sorted(..., reverse=True)` / `list.sort(reverse=True)` (both stable). -/
def sortDesc (ge : α → α → Bool) : List α → List α
  | [] => []
  | x :: xs => insertByDesc ge x (sortDesc ge xs)

/-- Floor of a rational as an integer, by floor division of the numerator by
the denominator (kernel-reducible, unlike `Int.floor`'s instance path). -/
def ratFloor (q : ℚ) : ℤ := q.num.fdiv q.den

/-- Models Python's `round(x, 1)` used on the reported `_score` field:
round `10·x` to an integer and divide by ten.  (Python rounds exact halves
to even on the binary float value; no claim here depends on tie direction,
only on monotonicity, which both roundings share.) -/
def pyRound1 (q : ℚ) : ℚ := (ratFloor (10 * q + mkRat 1 2) : ℚ) * mkRat 1 10

/-! ## Data model -/

/-- One entry of `CLASSIFICATION_RULES` (src/app.py line 79): keyword
triggers, descriptive text, the 6-digit code, the two jurisdiction-specific
extended codes, and the chapter label. -/
structure Rule where
  keywords : List String
  category : String
  material : String
  usage : String
  hs6 : String
  hts10 : String
  jp_hs9 : String
  chapter : String
  reason : String
deriving DecidableEq, Repr

/-- The per-request context dict built by `_detect_context`
(src/app.py lines 2657-2709). -/
structure Ctx where
  brand_chapter : Option String
  brand_name : Option String
  is_auto : Bool
  auto_boost : ℚ
  is_electronics : Bool
  is_apparel : Bool
  is_cosmetics : Bool
  is_watch : Bool
  has_part_number : Bool
deriving DecidableEq, Repr

/-- One output candidate of `classify_product` (the dicts built at
src/app.py lines 3279-3292): codes, descriptive text, chapter, justification,
confidence label and the rounded internal score. -/
structure Candidate where
  hs6 : String
  hts : String
  jp_hs : String
  category : String
  material : String
  usage : String
  chapter : String
  reason : String
  confidence : String
  score : ℚ
deriving DecidableEq, Repr
/-- Embeds `_BRAND_CATEGORY` (src/app.py lines 1744-1803): brand token → chapter, in dict insertion order (later duplicate insertions such as garmin/fitbit keep the first position with the last value, as in Python). -/
def BRAND_CATEGORY : List (String × String) := [
  ("honda", "Chapter 87"),
  ("toyota", "Chapter 87"),
  ("nissan", "Chapter 87"),
  ("mazda", "Chapter 87"),
  ("subaru", "Chapter 87"),
  ("mitsubishi", "Chapter 87"),
  ("suzuki", "Chapter 87"),
  ("daihatsu", "Chapter 87"),
  ("lexus", "Chapter 87"),
  ("infiniti", "Chapter 87"),
  ("acura", "Chapter 87"),
  ("scion", "Chapter 87"),
  ("ford", "Chapter 87"),
  ("chevrolet", "Chapter 87"),
  ("chevy", "Chapter 87"),
  ("gmc", "Chapter 87"),
  ("dodge", "Chapter 87"),
  ("chrysler", "Chapter 87"),
  ("jeep", "Chapter 87"),
  ("lincoln", "Chapter 87"),
  ("cadillac", "Chapter 87"),
  ("buick", "Chapter 87"),
  ("ram", "Chapter 87"),
  ("tesla", "Chapter 87"),
  ("bmw", "Chapter 87"),
  ("mercedes", "Chapter 87"),
  ("benz", "Chapter 87"),
  ("audi", "Chapter 87"),
  ("volkswagen", "Chapter 87"),
  ("vw", "Chapter 87"),
  ("porsche", "Chapter 87"),
  ("opel", "Chapter 87"),
  ("volvo", "Chapter 87"),
  ("saab", "Chapter 87"),
  ("fiat", "Chapter 87"),
  ("alfa romeo", "Chapter 87"),
  ("ferrari", "Chapter 87"),
  ("lamborghini", "Chapter 87"),
  ("maserati", "Chapter 87"),
  ("peugeot", "Chapter 87"),
  ("renault", "Chapter 87"),
  ("citroen", "Chapter 87"),
  ("hyundai", "Chapter 87"),
  ("kia", "Chapter 87"),
  ("daewoo", "Chapter 87"),
  ("ssangyong", "Chapter 87"),
  ("land rover", "Chapter 87"),
  ("jaguar", "Chapter 87"),
  ("bentley", "Chapter 87"),
  ("rolls-royce", "Chapter 87"),
  ("aston martin", "Chapter 87"),
  ("apple", "Chapter 85"),
  ("samsung", "Chapter 85"),
  ("google", "Chapter 85"),
  ("sony", "Chapter 85"),
  ("lg", "Chapter 85"),
  ("huawei", "Chapter 85"),
  ("xiaomi", "Chapter 85"),
  ("oppo", "Chapter 85"),
  ("vivo", "Chapter 85"),
  ("oneplus", "Chapter 85"),
  ("realme", "Chapter 85"),
  ("motorola", "Chapter 85"),
  ("nokia", "Chapter 85"),
  ("asus", "Chapter 85"),
  ("acer", "Chapter 85"),
  ("lenovo", "Chapter 85"),
  ("dell", "Chapter 85"),
  ("hp", "Chapter 85"),
  ("microsoft", "Chapter 85"),
  ("toshiba", "Chapter 85"),
  ("sharp", "Chapter 85"),
  ("panasonic", "Chapter 85"),
  ("philips", "Chapter 85"),
  ("bose", "Chapter 85"),
  ("jbl", "Chapter 85"),
  ("sennheiser", "Chapter 85"),
  ("anker", "Chapter 85"),
  ("belkin", "Chapter 85"),
  ("logitech", "Chapter 85"),
  ("razer", "Chapter 85"),
  ("corsair", "Chapter 85"),
  ("kingston", "Chapter 85"),
  ("sandisk", "Chapter 85"),
  ("western digital", "Chapter 85"),
  ("seagate", "Chapter 85"),
  ("nvidia", "Chapter 85"),
  ("intel", "Chapter 85"),
  ("amd", "Chapter 85"),
  ("canon", "Chapter 85"),
  ("nikon", "Chapter 85"),
  ("fujifilm", "Chapter 85"),
  ("olympus", "Chapter 85"),
  ("gopro", "Chapter 85"),
  ("dji", "Chapter 85"),
  ("garmin", "Chapter 91"),
  ("fitbit", "Chapter 91"),
  ("nike", "Chapter 61"),
  ("adidas", "Chapter 61"),
  ("puma", "Chapter 61"),
  ("reebok", "Chapter 61"),
  ("new balance", "Chapter 61"),
  ("converse", "Chapter 61"),
  ("vans", "Chapter 61"),
  ("under armour", "Chapter 61"),
  ("columbia", "Chapter 61"),
  ("the north face", "Chapter 61"),
  ("patagonia", "Chapter 61"),
  ("arc'teryx", "Chapter 61"),
  ("uniqlo", "Chapter 61"),
  ("zara", "Chapter 61"),
  ("h&m", "Chapter 61"),
  ("gap", "Chapter 61"),
  ("levi's", "Chapter 61"),
  ("levis", "Chapter 61"),
  ("wrangler", "Chapter 61"),
  ("calvin klein", "Chapter 61"),
  ("ralph lauren", "Chapter 61"),
  ("polo", "Chapter 61"),
  ("tommy hilfiger", "Chapter 61"),
  ("lacoste", "Chapter 61"),
  ("burberry", "Chapter 61"),
  ("gucci", "Chapter 61"),
  ("prada", "Chapter 61"),
  ("louis vuitton", "Chapter 61"),
  ("chanel", "Chapter 61"),
  ("hermes", "Chapter 61"),
  ("dior", "Chapter 61"),
  ("balenciaga", "Chapter 61"),
  ("givenchy", "Chapter 61"),
  ("versace", "Chapter 61"),
  ("armani", "Chapter 61"),
  ("coach", "Chapter 61"),
  ("michael kors", "Chapter 61"),
  ("kate spade", "Chapter 61"),
  ("tory burch", "Chapter 61"),
  ("supreme", "Chapter 61"),
  ("stussy", "Chapter 61"),
  ("champion", "Chapter 61"),
  ("fila", "Chapter 61"),
  ("asics", "Chapter 61"),
  ("mizuno", "Chapter 61"),
  ("skechers", "Chapter 61"),
  ("crocs", "Chapter 61"),
  ("shiseido", "Chapter 33"),
  ("sk-ii", "Chapter 33"),
  ("lancome", "Chapter 33"),
  ("estee lauder", "Chapter 33"),
  ("clinique", "Chapter 33"),
  ("mac", "Chapter 33"),
  ("nars", "Chapter 33"),
  ("bobbi brown", "Chapter 33"),
  ("tom ford", "Chapter 33"),
  ("ysl", "Chapter 33"),
  ("maybelline", "Chapter 33"),
  ("loreal", "Chapter 33"),
  ("revlon", "Chapter 33"),
  ("covergirl", "Chapter 33"),
  ("neutrogena", "Chapter 33"),
  ("olay", "Chapter 33"),
  ("kiehl's", "Chapter 33"),
  ("lush", "Chapter 33"),
  ("the body shop", "Chapter 33"),
  ("innisfree", "Chapter 33"),
  ("etude", "Chapter 33"),
  ("sulwhasoo", "Chapter 33"),
  ("laneige", "Chapter 33"),
  ("citizen", "Chapter 91"),
  ("seiko", "Chapter 91"),
  ("casio", "Chapter 91"),
  ("g-shock", "Chapter 91"),
  ("orient", "Chapter 91"),
  ("grand seiko", "Chapter 91"),
  ("rolex", "Chapter 91"),
  ("omega", "Chapter 91"),
  ("tag heuer", "Chapter 91"),
  ("breitling", "Chapter 91"),
  ("longines", "Chapter 91"),
  ("tissot", "Chapter 91"),
  ("hamilton", "Chapter 91"),
  ("swatch", "Chapter 91"),
  ("tudor", "Chapter 91"),
  ("cartier", "Chapter 91"),
  ("patek philippe", "Chapter 91"),
  ("audemars piguet", "Chapter 91"),
  ("iwc", "Chapter 91"),
  ("panerai", "Chapter 91"),
  ("hublot", "Chapter 91"),
  ("jaeger-lecoultre", "Chapter 91"),
  ("vacheron constantin", "Chapter 91"),
  ("zenith", "Chapter 91"),
  ("movado", "Chapter 91"),
  ("bulova", "Chapter 91"),
  ("timex", "Chapter 91"),
  ("fossil", "Chapter 91"),
  ("suunto", "Chapter 91"),
  ("luminox", "Chapter 91")
]

/-- Embeds `_SHOE_PRIMARY_BRANDS` (src/app.py lines 1812-1816). -/
def SHOE_PRIMARY_BRANDS : List String := [
  "adidas",
  "asics",
  "birkenstock",
  "converse",
  "crocs",
  "dr. martens",
  "mizuno",
  "new balance",
  "nike",
  "puma",
  "reebok",
  "skechers",
  "timberland",
  "ugg",
  "under armour",
  "vans"
]

/-- Embeds `_AUTO_CONTEXT_WORDS` (src/app.py lines 1819-1836); a Python set, here a duplicate-free list (only membership and counting are used, both order-independent). -/
def AUTO_CONTEXT_WORDS : List String := [
  "aftermarket",
  "alternator",
  "antenna",
  "assembly",
  "automotive",
  "axle",
  "bearing",
  "block off",
  "bracket",
  "brake",
  "bumper",
  "caliper",
  "camshaft",
  "car",
  "carburetor",
  "catalytic",
  "clamp",
  "clutch",
  "coil",
  "compressor",
  "converter",
  "crankshaft",
  "delete",
  "differential",
  "distributor",
  "door handle",
  "engine",
  "exhaust",
  "fender",
  "flywheel",
  "fuel pump",
  "gasket",
  "gauge",
  "genuine",
  "grille",
  "harness",
  "headlight",
  "hinge",
  "hood",
  "hose",
  "ignition",
  "injector",
  "intake",
  "intercooler",
  "jdm",
  "latch",
  "manifold",
  "mirror",
  "motor",
  "mount",
  "muffler",
  "o-ring",
  "odometer",
  "oem",
  "piston",
  "plug cap",
  "radiator",
  "relay",
  "replacement",
  "rotor",
  "seal",
  "sedan",
  "sensor",
  "shock",
  "speedometer",
  "starter",
  "steering",
  "strut",
  "suspension",
  "suv",
  "tachometer",
  "tailgate",
  "taillight",
  "timing",
  "transmission",
  "truck",
  "trunk",
  "turbo",
  "valve",
  "vehicle",
  "visor",
  "weatherstrip",
  "window regulator",
  "windshield",
  "wiper",
  "wiring"
]

/-- Embeds `_PHRASE_CONTEXT` (src/app.py lines 1846-1930): polysemous word → list of (co-occurrence word set, target chapter, base boost); the sets are duplicate-free lists (only a membership count is taken). -/
def PHRASE_CONTEXT : List (String × List (List String × String × ℚ)) := [
  ("cap", [
    (["antenna", "block", "delete", "distributor", "engine", "filler", "fuel", "gas", "oil", "plug", "radiator", "rotor", "valve"], "Chapter 87", 5),
    (["bottle", "drink", "lid", "water"], "Chapter 39", 3)]),
  ("plug", [
    (["antenna", "block", "cylinder", "delete", "drain", "engine", "freeze", "ignition", "oil", "spark"], "Chapter 87", 5),
    (["adapter", "electric", "outlet", "power", "socket", "usb"], "Chapter 85", 3)]),
  ("cover", [
    (["bumper", "door", "engine", "fender", "hood", "rocker", "timing", "trunk", "valve"], "Chapter 87", 5),
    (["ipad", "iphone", "phone", "smartphone", "tablet"], "Chapter 42", 3),
    (["bed", "cushion", "pillow", "seat", "sofa"], "Chapter 63", 3)]),
  ("light", [
    (["brake", "bumper", "dashboard", "fog", "head", "marker", "parking", "reverse", "signal", "tail", "turn"], "Chapter 87", 5),
    (["ceiling", "chandelier", "desk", "floor", "pendant", "table", "wall", "ライト", "ランプ", "照明"], "Chapter 94", 3)]),
  ("band", [
    (["apple", "fitbit", "garmin", "silicon", "strap", "watch", "wrist", "時計"], "Chapter 91", 4),
    (["elastic", "exercise", "hair", "resistance", "rubber"], "Chapter 40", 2)]),
  ("case", [
    (["airpods", "galaxy", "ipad", "iphone", "phone", "pixel", "smartphone", "tablet", "スマホ"], "Chapter 42", 4),
    (["ammo", "gear", "gun", "pelican", "rifle", "tool"], "Chapter 42", 3),
    (["bumper", "chain", "differential", "timing", "transfer", "transmission"], "Chapter 87", 5)]),
  ("shell", [
    (["body", "bumper", "door", "fender", "panel", "quarter", "trunk"], "Chapter 87", 5),
    (["iphone", "laptop", "macbook", "phone"], "Chapter 42", 3)]),
  ("plate", [
    (["armor", "bracket", "clutch", "license", "mounting", "number", "pressure", "skid"], "Chapter 87", 5),
    (["ceramic", "china", "dinner", "porcelain", "皿", "磁器", "食器"], "Chapter 69", 3)]),
  ("ring", [
    (["bearing", "gasket", "o-ring", "piston", "retaining", "seal", "snap", "synchronizer"], "Chapter 87", 5),
    (["diamond", "engagement", "gold", "jewelry", "silver", "wedding", "ジュエリー", "指輪"], "Chapter 71", 3)]),
  ("mount", [
    (["engine", "exhaust", "motor", "shock", "strut", "transmission"], "Chapter 87", 5),
    (["camera", "monitor", "tripod", "tv", "wall"], "Chapter 85", 2)]),
  ("brush", [
    (["alternator", "carbon", "dynamo", "generator", "motor", "starter"], "Chapter 87", 5),
    (["hair", "makeup", "paint", "tooth", "ヘアブラシ", "歯ブラシ"], "Chapter 96", 3)]),
  ("mirror", [
    (["blind spot", "door", "rear", "side", "towing", "view", "wing"], "Chapter 87", 5),
    (["bathroom", "compact", "makeup", "vanity", "wall"], "Chapter 70", 2)]),
  ("filter", [
    (["air", "cabin", "engine", "fuel", "intake", "oil", "transmission"], "Chapter 87", 5),
    (["coffee", "hepa", "vacuum", "water"], "Chapter 84", 2)]),
  ("pump", [
    (["brake", "coolant", "fuel", "oil", "power steering", "washer", "water"], "Chapter 87", 5),
    (["air", "aquarium", "bicycle", "pool"], "Chapter 84", 2)]),
  ("pen", [
    (["ball", "ballpoint", "fountain", "marker", "ペン", "ボールペン", "万年筆", "鉛筆"], "Chapter 96", 3)])
]

/-- Embeds `_EBAY_LEAF_CATEGORY_MAP` (src/app.py lines 1951-2400) in dict insertion order (the partial-match tier iterates it in this order). -/
def EBAY_LEAF_CATEGORY_MAP : List (String × String) := [
  ("wristwatches", "Chapter 91"),
  ("pocket watches", "Chapter 91"),
  ("watch accessories", "Chapter 91"),
  ("watch bands", "Chapter 91"),
  ("watch parts", "Chapter 91"),
  ("watch cases", "Chapter 91"),
  ("watch tools & repair kits", "Chapter 91"),
  ("watches", "Chapter 91"),
  ("clocks", "Chapter 91"),
  ("clock parts & tools", "Chapter 91"),
  ("wall clocks", "Chapter 91"),
  ("alarm clocks & clock radios", "Chapter 91"),
  ("mantel & shelf clocks", "Chapter 91"),
  ("grandfather clocks", "Chapter 91"),
  ("cuckoo clocks", "Chapter 91"),
  ("rings", "Chapter 71"),
  ("necklaces & pendants", "Chapter 71"),
  ("earrings", "Chapter 71"),
  ("bracelets", "Chapter 71"),
  ("brooches & pins", "Chapter 71"),
  ("fine jewelry sets", "Chapter 71"),
  ("fine anklets", "Chapter 71"),
  ("fine charms & charm bracelets", "Chapter 71"),
  ("fashion necklaces & pendants", "Chapter 71"),
  ("fashion earrings", "Chapter 71"),
  ("fashion bracelets", "Chapter 71"),
  ("fashion rings", "Chapter 71"),
  ("fashion brooches & pins", "Chapter 71"),
  ("fashion jewelry sets", "Chapter 71"),
  ("body jewelry", "Chapter 71"),
  ("charms & charm bracelets", "Chapter 71"),
  ("loose diamonds & gemstones", "Chapter 71"),
  ("loose beads", "Chapter 71"),
  ("men's shirts", "Chapter 62"),
  ("men's t-shirts", "Chapter 61"),
  ("men's pants", "Chapter 62"),
  ("men's jeans", "Chapter 62"),
  ("men's shorts", "Chapter 62"),
  ("men's coats, jackets & vests", "Chapter 62"),
  ("men's sweaters", "Chapter 61"),
  ("men's hoodies & sweatshirts", "Chapter 61"),
  ("men's suits & suit separates", "Chapter 62"),
  ("men's activewear", "Chapter 61"),
  ("men's underwear", "Chapter 61"),
  ("men's socks", "Chapter 61"),
  ("men's sleepwear & robes", "Chapter 62"),
  ("men's swimwear", "Chapter 62"),
  ("men's uniforms", "Chapter 62"),
  ("men's costumes", "Chapter 62"),
  ("men's clothing", "Chapter 62"),
  ("women's dresses", "Chapter 62"),
  ("women's tops", "Chapter 62"),
  ("women's t-shirts", "Chapter 61"),
  ("women's pants", "Chapter 62"),
  ("women's jeans", "Chapter 62"),
  ("women's shorts", "Chapter 62"),
  ("women's coats, jackets & vests", "Chapter 62"),
  ("women's sweaters", "Chapter 61"),
  ("women's hoodies & sweatshirts", "Chapter 61"),
  ("women's skirts", "Chapter 62"),
  ("women's suits & suit separates", "Chapter 62"),
  ("women's activewear", "Chapter 61"),
  ("women's intimates & sleepwear", "Chapter 62"),
  ("women's swimwear", "Chapter 62"),
  ("women's maternity", "Chapter 62"),
  ("women's costumes", "Chapter 62"),
  ("women's clothing", "Chapter 62"),
  ("boys' clothing", "Chapter 62"),
  ("girls' clothing", "Chapter 62"),
  ("baby clothing", "Chapter 62"),
  ("unisex kids' clothing", "Chapter 62"),
  ("men's shoes", "Chapter 64"),
  ("women's shoes", "Chapter 64"),
  ("boys' shoes", "Chapter 64"),
  ("girls' shoes", "Chapter 64"),
  ("baby shoes", "Chapter 64"),
  ("unisex shoes", "Chapter 64"),
  ("athletic shoes", "Chapter 64"),
  ("sneakers", "Chapter 64"),
  ("boots", "Chapter 64"),
  ("sandals", "Chapter 64"),
  ("slippers", "Chapter 64"),
  ("flats", "Chapter 64"),
  ("heels", "Chapter 64"),
  ("loafers & slip ons", "Chapter 64"),
  ("oxfords & dress shoes", "Chapter 64"),
  ("women's bags & handbags", "Chapter 42"),
  ("men's bags", "Chapter 42"),
  ("backpacks", "Chapter 42"),
  ("briefcases & laptop bags", "Chapter 42"),
  ("wallets", "Chapter 42"),
  ("coin purses", "Chapter 42"),
  ("travel luggage", "Chapter 42"),
  ("luggage", "Chapter 42"),
  ("suitcases", "Chapter 42"),
  ("duffel bags", "Chapter 42"),
  ("tote bags", "Chapter 42"),
  ("crossbody bags", "Chapter 42"),
  ("clutch bags", "Chapter 42"),
  ("messenger bags", "Chapter 42"),
  ("fanny packs", "Chapter 42"),
  ("belts", "Chapter 42"),
  ("key chains, rings & finders", "Chapter 73"),
  ("sunglasses", "Chapter 90"),
  ("eyeglass frames", "Chapter 90"),
  ("hats", "Chapter 65"),
  ("caps", "Chapter 65"),
  ("baseball caps", "Chapter 65"),
  ("beanies", "Chapter 65"),
  ("sun hats & visors", "Chapter 65"),
  ("scarves & wraps", "Chapter 62"),
  ("gloves & mittens", "Chapter 62"),
  ("ties, bow ties & cravats", "Chapter 62"),
  ("umbrellas", "Chapter 66"),
  ("hair accessories", "Chapter 96"),
  ("watches, parts & accessories", "Chapter 91"),
  ("cell phones & smartphones", "Chapter 85"),
  ("cell phone cases, covers & skins", "Chapter 42"),
  ("cell phone screen protectors", "Chapter 39"),
  ("cell phone chargers & cradles", "Chapter 85"),
  ("cell phone batteries", "Chapter 85"),
  ("cell phone cables & adapters", "Chapter 85"),
  ("headsets", "Chapter 85"),
  ("cell phone accessories", "Chapter 85"),
  ("smart watches", "Chapter 91"),
  ("smart watch accessories", "Chapter 91"),
  ("smart watch bands", "Chapter 91"),
  ("laptops & netbooks", "Chapter 84"),
  ("desktops & all-in-ones", "Chapter 84"),
  ("tablets & ereaders", "Chapter 84"),
  ("monitors, projectors & accs", "Chapter 85"),
  ("monitors", "Chapter 85"),
  ("projectors", "Chapter 85"),
  ("printers, scanners & supplies", "Chapter 84"),
  ("printers", "Chapter 84"),
  ("scanners", "Chapter 84"),
  ("keyboards & mice", "Chapter 84"),
  ("computer components & parts", "Chapter 84"),
  ("drives, storage & blank media", "Chapter 84"),
  ("networking", "Chapter 85"),
  ("routers", "Chapter 85"),
  ("switches & hubs", "Chapter 85"),
  ("power protection, distribution", "Chapter 85"),
  ("computer cables & connectors", "Chapter 85"),
  ("tv, video & home audio", "Chapter 85"),
  ("televisions", "Chapter 85"),
  ("home theater projectors", "Chapter 85"),
  ("home audio", "Chapter 85"),
  ("speakers", "Chapter 85"),
  ("headphones", "Chapter 85"),
  ("earbuds", "Chapter 85"),
  ("portable audio & headphones", "Chapter 85"),
  ("mp3 players", "Chapter 85"),
  ("portable cd players", "Chapter 85"),
  ("vehicle electronics & gps", "Chapter 85"),
  ("car audio", "Chapter 85"),
  ("car video", "Chapter 85"),
  ("gps units", "Chapter 85"),
  ("multipurpose batteries & power", "Chapter 85"),
  ("batteries", "Chapter 85"),
  ("video game consoles", "Chapter 95"),
  ("video games", "Chapter 95"),
  ("digital cameras", "Chapter 90"),
  ("film cameras", "Chapter 90"),
  ("camcorders", "Chapter 85"),
  ("camera drones", "Chapter 88"),
  ("lenses & filters", "Chapter 90"),
  ("flashes & flash accessories", "Chapter 90"),
  ("tripods & monopods", "Chapter 90"),
  ("camera bags & cases", "Chapter 42"),
  ("binoculars & telescopes", "Chapter 90"),
  ("binoculars & monoculars", "Chapter 90"),
  ("telescopes", "Chapter 90"),
  ("microscopes", "Chapter 90"),
  ("car & truck parts & accessories", "Chapter 87"),
  ("car & truck parts", "Chapter 87"),
  ("motorcycle parts", "Chapter 87"),
  ("atv, side-by-side & utv parts", "Chapter 87"),
  ("boat parts", "Chapter 89"),
  ("automotive tools & supplies", "Chapter 82"),
  ("automotive paints & supplies", "Chapter 32"),
  ("oils, fluids, lubricants & sealers", "Chapter 27"),
  ("tires & wheels", "Chapter 40"),
  ("brakes & brake parts", "Chapter 87"),
  ("engine cooling parts", "Chapter 87"),
  ("engines & components", "Chapter 87"),
  ("exhaust parts", "Chapter 87"),
  ("exterior parts & accessories", "Chapter 87"),
  ("interior parts & accessories", "Chapter 87"),
  ("lighting & lamps", "Chapter 87"),
  ("starters, alternators, ecus & wiring", "Chapter 87"),
  ("steering & suspension", "Chapter 87"),
  ("transmission & drivetrain", "Chapter 87"),
  ("air & fuel delivery", "Chapter 87"),
  ("ignition systems & components", "Chapter 87"),
  ("filters", "Chapter 87"),
  ("furniture", "Chapter 94"),
  ("sofas, armchairs & couches", "Chapter 94"),
  ("tables", "Chapter 94"),
  ("chairs", "Chapter 94"),
  ("beds & mattresses", "Chapter 94"),
  ("bookcases & shelving", "Chapter 94"),
  ("desks & tables", "Chapter 94"),
  ("cabinets & cupboards", "Chapter 94"),
  ("lamps, lighting & ceiling fans", "Chapter 94"),
  ("ceiling lights & chandeliers", "Chapter 94"),
  ("wall fixtures", "Chapter 94"),
  ("table lamps", "Chapter 94"),
  ("floor lamps", "Chapter 94"),
  ("rugs & carpets", "Chapter 57"),
  ("window treatments & hardware", "Chapter 63"),
  ("curtains & drapes", "Chapter 63"),
  ("bedding", "Chapter 63"),
  ("sheets & pillowcases", "Chapter 63"),
  ("comforters & sets", "Chapter 63"),
  ("quilts & bedspreads", "Chapter 63"),
  ("blankets & throws", "Chapter 63"),
  ("pillows", "Chapter 63"),
  ("bath towels", "Chapter 63"),
  ("bath", "Chapter 63"),
  ("kitchen, dining & bar", "Chapter 69"),
  ("dinnerware & serveware", "Chapter 69"),
  ("cookware", "Chapter 73"),
  ("bakeware", "Chapter 73"),
  ("flatware, knives & cutlery", "Chapter 82"),
  ("small kitchen appliances", "Chapter 85"),
  ("major appliances", "Chapter 84"),
  ("refrigerators & freezers", "Chapter 84"),
  ("washers & dryers", "Chapter 84"),
  ("dishwashers", "Chapter 84"),
  ("vacuums", "Chapter 85"),
  ("candles & home fragrance", "Chapter 34"),
  ("home décor", "Chapter 94"),
  ("vases", "Chapter 69"),
  ("picture frames", "Chapter 44"),
  ("mirrors", "Chapter 70"),
  ("yard, garden & outdoor living", "Chapter 94"),
  ("outdoor furniture", "Chapter 94"),
  ("garden tools & equipment", "Chapter 82"),
  ("lawn mowers", "Chapter 84"),
  ("grills & outdoor cooking", "Chapter 73"),
  ("storage & organization", "Chapter 39"),
  ("cleaning supplies", "Chapter 34"),
  ("cycling", "Chapter 87"),
  ("bicycles", "Chapter 87"),
  ("cycling parts & components", "Chapter 87"),
  ("golf", "Chapter 95"),
  ("golf clubs", "Chapter 95"),
  ("golf bags", "Chapter 42"),
  ("tennis & racquet sports", "Chapter 95"),
  ("fishing", "Chapter 95"),
  ("hunting", "Chapter 93"),
  ("camping & hiking", "Chapter 63"),
  ("tents & canopies", "Chapter 63"),
  ("sleeping bags", "Chapter 94"),
  ("fitness, running & yoga", "Chapter 95"),
  ("exercise & fitness equipment", "Chapter 95"),
  ("team sports", "Chapter 95"),
  ("water sports", "Chapter 95"),
  ("winter sports", "Chapter 95"),
  ("skiing & snowboarding", "Chapter 95"),
  ("skateboarding & longboarding", "Chapter 95"),
  ("boxing & martial arts", "Chapter 95"),
  ("outdoor sports", "Chapter 95"),
  ("action figures", "Chapter 95"),
  ("dolls & bears", "Chapter 95"),
  ("dolls", "Chapter 95"),
  ("stuffed animals", "Chapter 95"),
  ("building toys", "Chapter 95"),
  ("lego sets & packs", "Chapter 95"),
  ("diecast & toy vehicles", "Chapter 95"),
  ("model railroads & trains", "Chapter 95"),
  ("rc model vehicles, toys & control line", "Chapter 95"),
  ("games", "Chapter 95"),
  ("board & traditional games", "Chapter 95"),
  ("card games & poker", "Chapter 95"),
  ("puzzles", "Chapter 95"),
  ("outdoor toys & structures", "Chapter 95"),
  ("educational", "Chapter 95"),
  ("preschool toys & pretend play", "Chapter 95"),
  ("electronic, battery & wind-up", "Chapter 95"),
  ("toy vehicles", "Chapter 95"),
  ("models & kits", "Chapter 95"),
  ("hobby rc cars, trucks & motorcycles", "Chapter 95"),
  ("fragrances", "Chapter 33"),
  ("men's fragrances", "Chapter 33"),
  ("women's fragrances", "Chapter 33"),
  ("unisex fragrances", "Chapter 33"),
  ("skin care", "Chapter 33"),
  ("makeup", "Chapter 33"),
  ("face makeup", "Chapter 33"),
  ("eye makeup", "Chapter 33"),
  ("lip makeup", "Chapter 33"),
  ("nail care, manicure & pedicure", "Chapter 33"),
  ("nail polish", "Chapter 33"),
  ("hair care & styling", "Chapter 33"),
  ("shampoos & conditioners", "Chapter 34"),
  ("bath & body", "Chapter 33"),
  ("oral care", "Chapter 96"),
  ("toothbrushes", "Chapter 96"),
  ("shaving & hair removal", "Chapter 82"),
  ("razors & razor blades", "Chapter 82"),
  ("health care", "Chapter 30"),
  ("vitamins & dietary supplements", "Chapter 21"),
  ("medical & mobility", "Chapter 90"),
  ("massage equipment", "Chapter 90"),
  ("vision care", "Chapter 90"),
  ("guitars & basses", "Chapter 92"),
  ("guitars", "Chapter 92"),
  ("bass guitars", "Chapter 92"),
  ("drums & percussion", "Chapter 92"),
  ("pianos, keyboards & organs", "Chapter 92"),
  ("brass", "Chapter 92"),
  ("woodwinds", "Chapter 92"),
  ("string", "Chapter 92"),
  ("pro audio equipment", "Chapter 85"),
  ("microphones", "Chapter 85"),
  ("amplifiers", "Chapter 85"),
  ("dj equipment", "Chapter 85"),
  ("stage lighting & effects", "Chapter 85"),
  ("books", "Chapter 49"),
  ("fiction books", "Chapter 49"),
  ("nonfiction books", "Chapter 49"),
  ("textbooks, education & reference", "Chapter 49"),
  ("children's & young adults", "Chapter 49"),
  ("magazines", "Chapter 49"),
  ("comic books", "Chapter 49"),
  ("dvds & blu-ray discs", "Chapter 85"),
  ("vhs tapes", "Chapter 85"),
  ("cds", "Chapter 85"),
  ("vinyl records", "Chapter 85"),
  ("cassettes", "Chapter 85"),
  ("art", "Chapter 97"),
  ("paintings", "Chapter 97"),
  ("art prints", "Chapter 49"),
  ("art photographs", "Chapter 49"),
  ("sculptures & carvings", "Chapter 97"),
  ("antiques", "Chapter 97"),
  ("coins & paper money", "Chapter 71"),
  ("coins", "Chapter 71"),
  ("paper money", "Chapter 49"),
  ("stamps", "Chapter 49"),
  ("sports memorabilia", "Chapter 95"),
  ("trading cards", "Chapter 49"),
  ("pottery & glass", "Chapter 69"),
  ("pottery & china", "Chapter 69"),
  ("glass", "Chapter 70"),
  ("decorative collectibles", "Chapter 69"),
  ("figurines", "Chapter 69"),
  ("heavy equipment, parts & attachments", "Chapter 84"),
  ("heavy equipment", "Chapter 84"),
  ("cnc, metalworking & manufacturing", "Chapter 84"),
  ("office", "Chapter 84"),
  ("printing & graphic arts", "Chapter 84"),
  ("restaurant & food service", "Chapter 84"),
  ("test, measurement & inspection", "Chapter 90"),
  ("electrical equipment & supplies", "Chapter 85"),
  ("hydraulics, pneumatics, pumps & plumbing", "Chapter 84"),
  ("industrial automation & motion controls", "Chapter 84"),
  ("material handling", "Chapter 84"),
  ("light industrial equipment & tools", "Chapter 84"),
  ("sewing", "Chapter 84"),
  ("sewing machines", "Chapter 84"),
  ("fabric", "Chapter 50"),
  ("yarn", "Chapter 56"),
  ("needlecrafts & yarn", "Chapter 56"),
  ("beads & jewelry making", "Chapter 71"),
  ("scrapbooking & paper crafts", "Chapter 48"),
  ("dog supplies", "Chapter 42"),
  ("cat supplies", "Chapter 42"),
  ("fish & aquariums", "Chapter 84"),
  ("bird supplies", "Chapter 42"),
  ("small animal supplies", "Chapter 42"),
  ("strollers & accessories", "Chapter 87"),
  ("car safety seats", "Chapter 94"),
  ("baby feeding", "Chapter 39"),
  ("baby bottles", "Chapter 39"),
  ("diapering", "Chapter 96"),
  ("nursery furniture", "Chapter 94"),
  ("baby gear", "Chapter 94"),
  ("baby toys", "Chapter 95"),
  ("coffee", "Chapter 09"),
  ("tea", "Chapter 09"),
  ("gourmet chocolates", "Chapter 18"),
  ("candy, gum & chocolate", "Chapter 17"),
  ("spices, seasonings & extracts", "Chapter 09"),
  ("pens & writing instruments", "Chapter 96"),
  ("lighters", "Chapter 96"),
  ("knives, swords & blades", "Chapter 82"),
  ("tool sets & kits", "Chapter 82"),
  ("hand tools", "Chapter 82"),
  ("power tools", "Chapter 84"),
  ("air tools", "Chapter 84")
]

/-- Embeds `_EBAY_PARENT_CATEGORY_MAP` (src/app.py lines 2402-2431). -/
def EBAY_PARENT_CATEGORY_MAP : List (String × String) := [
  ("jewelry & watches", "Chapter 71"),
  ("watches, parts & accessories", "Chapter 91"),
  ("fine jewelry", "Chapter 71"),
  ("fashion jewelry", "Chapter 71"),
  ("clothing, shoes & accessories", "Chapter 62"),
  ("men", "Chapter 62"),
  ("women", "Chapter 62"),
  ("cell phones & accessories", "Chapter 85"),
  ("computers/tablets & networking", "Chapter 84"),
  ("computers, tablets & networking", "Chapter 84"),
  ("consumer electronics", "Chapter 85"),
  ("cameras & photo", "Chapter 90"),
  ("ebay motors", "Chapter 87"),
  ("parts & accessories", "Chapter 87"),
  ("home & garden", "Chapter 94"),
  ("sporting goods", "Chapter 95"),
  ("toys & hobbies", "Chapter 95"),
  ("health & beauty", "Chapter 33"),
  ("musical instruments & gear", "Chapter 92"),
  ("books, comics & magazines", "Chapter 49"),
  ("collectibles & art", "Chapter 97"),
  ("business & industrial", "Chapter 84"),
  ("crafts", "Chapter 48"),
  ("pet supplies", "Chapter 42"),
  ("baby", "Chapter 62"),
  ("movies & tv", "Chapter 85"),
  ("music", "Chapter 85")
]

/-- Embeds `_ITEM_TYPE_TO_CHAPTER` (src/app.py lines 2433-2516). -/
def ITEM_TYPE_TO_CHAPTER : List (String × String) := [
  ("wristwatch", "Chapter 91"),
  ("wristwatches", "Chapter 91"),
  ("analog watch", "Chapter 91"),
  ("digital watch", "Chapter 91"),
  ("smartwatch", "Chapter 91"),
  ("pocket watch", "Chapter 91"),
  ("clock", "Chapter 91"),
  ("watch", "Chapter 91"),
  ("dive watch", "Chapter 91"),
  ("dress watch", "Chapter 91"),
  ("sport watch", "Chapter 91"),
  ("chronograph", "Chapter 91"),
  ("necklace", "Chapter 71"),
  ("bracelet", "Chapter 71"),
  ("ring", "Chapter 71"),
  ("earring", "Chapter 71"),
  ("earrings", "Chapter 71"),
  ("pendant", "Chapter 71"),
  ("brooch", "Chapter 71"),
  ("anklet", "Chapter 71"),
  ("charm", "Chapter 71"),
  ("smartphone", "Chapter 85"),
  ("cell phone", "Chapter 85"),
  ("mobile phone", "Chapter 85"),
  ("tablet", "Chapter 84"),
  ("laptop", "Chapter 84"),
  ("desktop", "Chapter 84"),
  ("headphones", "Chapter 85"),
  ("earbuds", "Chapter 85"),
  ("speaker", "Chapter 85"),
  ("camera", "Chapter 90"),
  ("digital camera", "Chapter 90"),
  ("television", "Chapter 85"),
  ("monitor", "Chapter 85"),
  ("printer", "Chapter 84"),
  ("scanner", "Chapter 84"),
  ("router", "Chapter 85"),
  ("keyboard", "Chapter 92"),
  ("mouse", "Chapter 84"),
  ("shirt", "Chapter 62"),
  ("t-shirt", "Chapter 61"),
  ("jacket", "Chapter 62"),
  ("coat", "Chapter 62"),
  ("pants", "Chapter 62"),
  ("jeans", "Chapter 62"),
  ("dress", "Chapter 62"),
  ("skirt", "Chapter 62"),
  ("sweater", "Chapter 61"),
  ("hoodie", "Chapter 61"),
  ("suit", "Chapter 62"),
  ("blazer", "Chapter 62"),
  ("shorts", "Chapter 62"),
  ("vest", "Chapter 62"),
  ("sneakers", "Chapter 64"),
  ("boots", "Chapter 64"),
  ("sandals", "Chapter 64"),
  ("loafers", "Chapter 64"),
  ("athletic shoes", "Chapter 64"),
  ("running shoes", "Chapter 64"),
  ("heels", "Chapter 64"),
  ("flats", "Chapter 64"),
  ("oxfords", "Chapter 64"),
  ("slippers", "Chapter 64"),
  ("handbag", "Chapter 42"),
  ("backpack", "Chapter 42"),
  ("wallet", "Chapter 42"),
  ("tote bag", "Chapter 42"),
  ("crossbody bag", "Chapter 42"),
  ("clutch", "Chapter 42"),
  ("briefcase", "Chapter 42"),
  ("suitcase", "Chapter 42"),
  ("duffel bag", "Chapter 42"),
  ("messenger bag", "Chapter 42"),
  ("action figure", "Chapter 95"),
  ("doll", "Chapter 95"),
  ("board game", "Chapter 95"),
  ("puzzle", "Chapter 95"),
  ("stuffed animal", "Chapter 95"),
  ("building set", "Chapter 95"),
  ("brake pad", "Chapter 87"),
  ("air filter", "Chapter 87"),
  ("headlight", "Chapter 87"),
  ("bumper", "Chapter 87"),
  ("spark plug", "Chapter 87"),
  ("alternator", "Chapter 87"),
  ("sofa", "Chapter 94"),
  ("table", "Chapter 94"),
  ("chair", "Chapter 94"),
  ("desk", "Chapter 94"),
  ("bed", "Chapter 94"),
  ("bookcase", "Chapter 94"),
  ("perfume", "Chapter 33"),
  ("eau de toilette", "Chapter 33"),
  ("eau de parfum", "Chapter 33"),
  ("cologne", "Chapter 33"),
  ("lipstick", "Chapter 33"),
  ("mascara", "Chapter 33"),
  ("foundation", "Chapter 33"),
  ("concealer", "Chapter 33"),
  ("moisturizer", "Chapter 33"),
  ("serum", "Chapter 33"),
  ("sunscreen", "Chapter 33"),
  ("acoustic guitar", "Chapter 92"),
  ("electric guitar", "Chapter 92"),
  ("bass guitar", "Chapter 92"),
  ("drum set", "Chapter 92"),
  ("violin", "Chapter 92"),
  ("trumpet", "Chapter 92"),
  ("flute", "Chapter 92"),
  ("hat", "Chapter 65"),
  ("cap", "Chapter 65"),
  ("baseball cap", "Chapter 65"),
  ("beanie", "Chapter 65")
]

/-- Embeds `CLASSIFICATION_RULES` (src/app.py lines 79-1741): the full 66-rule corpus. -/
def CLASSIFICATION_RULES : List Rule := [
  ⟨["t-shirt", "tシャツ", "ティーシャツ", "tee", "シングレット"],
   "衣料品（ニット）",
   "綿 / ポリエステル",
   "日常着用",
   "6109.10",
   "6109.10.0012",
   "6109.10.900",
   "Chapter 61",
   "綿製Tシャツ・シングレット類。HTS 6109.10.00 stat.12(男子用綿製)。JP: 6109.10-900(その他のもの)。合成繊維製は6109.90。"⟩,
  ⟨["sweater", "セーター", "ニット", "knit", "pullover", "プルオーバー", "cardigan", "カーディガン", "hoodie", "パーカー", "フーディー", "ベスト", "vest"],
   "衣料品（ニットウェア）",
   "綿 / ウール / アクリル",
   "日常着用・防寒",
   "6110.20",
   "6110.20.2075",
   "6110.20.000",
   "Chapter 61",
   "ジャージー、プルオーバー、カーディガン等（メリヤス編み）。綿製=6110.20、羊毛製=6110.11、合成繊維製=6110.30。"⟩,
  ⟨["underwear", "下着", "ランジェリー", "lingerie", "ブラ", "bra", "パンティ", "panty", "ボクサー", "boxer", "ブリーフ", "brief"],
   "衣料品（下着）",
   "綿 / ナイロン",
   "着用",
   "6108.21",
   "6108.21.0010",
   "6108.21.000",
   "Chapter 61",
   "女子用ブリーフ・パンティ（メリヤス編み）。綿製=6108.21、人造繊維製=6108.22。男子用は6107。"⟩,
  ⟨["socks", "靴下", "ソックス", "stocking", "ストッキング", "タイツ", "tights"],
   "衣料品（靴下類）",
   "綿 / ナイロン",
   "着用",
   "6115.95",
   "6115.95.9010",
   "6115.95.000",
   "Chapter 61",
   "靴下類（メリヤス編み）。綿製=6115.95、合成繊維製=6115.96。パンティストッキング=6115.21/22。"⟩,
  ⟨["swimwear", "水着", "ビキニ", "bikini", "swim"],
   "衣料品（水着）",
   "ナイロン / ポリエステル",
   "水泳・レジャー",
   "6112.41",
   "6112.41.0010",
   "6112.41.000",
   "Chapter 61",
   "女子用水着（メリヤス編み）。合成繊維製=6112.41。男子用=6112.31。トラックスーツ=6112.11/12。"⟩,
  ⟨["shirt", "シャツ", "ブラウス", "blouse", "dress shirt", "ワイシャツ"],
   "衣料品（織物）",
   "綿 / ポリエステル / 混紡",
   "日常着用・ビジネス",
   "6205.20",
   "6205.20.2016",
   "6205.20.000",
   "Chapter 62",
   "男子用シャツ（織物製）。綿製=6205.20、人造繊維製=6205.30。JP: 6205.20-000。"⟩,
  ⟨["jacket", "ジャケット", "ブレザー", "blazer", "coat", "コート", "アウター", "アノラック", "anorak", "ウインドブレーカー", "windbreaker"],
   "衣料品（アウター）",
   "綿 / ウール / 化繊",
   "外出・防寒",
   "6201.40",
   "6201.40.2010",
   "6201.40.000",
   "Chapter 62",
   "男子用オーバーコート・アノラック類（織物製）。人造繊維製=6201.40、綿製=6201.30、羊毛製=6201.20。"⟩,
  ⟨["dress", "ドレス", "ワンピース", "one-piece"],
   "衣料品（婦人）",
   "ポリエステル / 綿",
   "日常着用・フォーマル",
   "6204.43",
   "6204.43.4020",
   "6204.43.000",
   "Chapter 62",
   "女子用ドレス（織物製）。合成繊維製=6204.43、綿製=6204.42。スーツ=6204.11-19、スカート=6204.51-59。"⟩,
  ⟨["pants", "パンツ", "ズボン", "trousers", "jeans", "ジーンズ", "デニム", "denim", "チノパン", "chinos", "スラックス", "slacks"],
   "衣料品（ボトムス）",
   "綿 / デニム",
   "日常着用",
   "6203.42",
   "6203.42.4011",
   "6203.42.000",
   "Chapter 62",
   "男子用ズボン・ショーツ（織物製）。綿製=6203.42、合成繊維製=6203.43。女子用=6204.62/63。"⟩,
  ⟨["skirt", "スカート", "キュロット"],
   "衣料品（婦人ボトムス）",
   "ポリエステル / 綿",
   "日常着用",
   "6204.52",
   "6204.52.2060",
   "6204.52.000",
   "Chapter 62",
   "女子用スカート（織物製）。綿製=6204.52、合成繊維製=6204.53。"⟩,
  ⟨["bag", "バッグ", "カバン", "鞄", "handbag", "ハンドバッグ", "tote", "トート", "shoulder bag", "ショルダー"],
   "バッグ・鞄",
   "革 / 合成皮革 / ナイロン",
   "携行・収納",
   "4202.21",
   "4202.21.6000",
   "4202.21.000",
   "Chapter 42",
   "ハンドバッグ類。外面が革製=4202.21、プラスチックシート製又は紡織用繊維製=4202.22。JP: 4202.21-000(外面が革製又はコンポジションレザー製)。"⟩,
  ⟨["wallet", "財布", "ウォレット", "purse", "長財布", "二つ折り", "コインケース"],
   "革小物",
   "革 / 合成皮革",
   "金銭・カード収納",
   "4202.31",
   "4202.31.6000",
   "4202.31.000",
   "Chapter 42",
   "ポケット又はハンドバッグに携帯する製品。革製=4202.31、プラスチック・繊維製=4202.32。"⟩,
  ⟨["backpack", "リュック", "バックパック", "rucksack", "デイパック"],
   "バッグ（リュック）",
   "ナイロン / ポリエステル",
   "携行・通勤通学",
   "4202.92",
   "4202.92.3031",
   "4202.92.000",
   "Chapter 42",
   "外面がプラスチックシート製又は紡織用繊維製のバッグ類=4202.92。JP: 4202.92-000。"⟩,
  ⟨["suitcase", "スーツケース", "キャリー", "luggage", "トランク", "carry-on"],
   "旅行用鞄",
   "プラスチック / 金属",
   "旅行・出張",
   "4202.12",
   "4202.12.8070",
   "4202.12.000",
   "Chapter 42",
   "トランク・スーツケース類。外面がプラスチック又は紡織用繊維製=4202.12、革製=4202.11。"⟩,
  ⟨["phone case", "スマホケース", "ケース", "case", "カバー", "cover", "iphone case"],
   "ケース・カバー",
   "プラスチック / シリコン / 革",
   "機器保護",
   "4202.99",
   "4202.99.9000",
   "4202.99.000",
   "Chapter 42",
   "携帯電話ケース等の容器。その他の材料=4202.99。革製=4202.91、プラスチック・繊維製=4202.92。"⟩,
  ⟨["shoes", "靴", "シューズ", "sneakers", "スニーカー", "footwear", "ブーツ", "boots", "サンダル", "sandals", "トレーニングシューズ", "running shoes", "ランニングシューズ", "air max", "ultraboost", "jordan", "yeezy", "dunk", "chuck taylor", "all star", "rs-x", "gel-", "574", "990", "993", "2002r", "air force", "stan smith", "superstar", "old skool", "classic leather", "club c", "suede", "new balance", "asics", "skechers", "crocs", "birkenstock", "timberland", "dr. martens", "ugg"],
   "履物",
   "ゴム / 合成素材 / 紡織用繊維",
   "着用・歩行",
   "6404.11",
   "6404.11.9020",
   "6404.11.000",
   "Chapter 64",
   "本底がゴム製又はプラスチック製、甲が紡織用繊維のスポーツ用履物=6404.11。JP: スポーツ用の履物及びテニスシューズ等。その他=6404.19。"⟩,
  ⟨["leather shoes", "革靴", "ローファー", "loafer", "オックスフォード", "oxford", "パンプス", "pumps", "ドレスシューズ"],
   "履物（革）",
   "革",
   "ビジネス・フォーマル",
   "6403.59",
   "6403.59.9060",
   "6403.59.000",
   "Chapter 64",
   "本底がゴム・プラスチック製、甲が革製の靴=6403.59(くるぶしを覆わないもの)。くるぶしを覆うもの=6403.51/91。"⟩,
  ⟨["phone", "smartphone", "スマホ", "スマートフォン", "携帯", "mobile", "iphone", "android", "galaxy", "pixel"],
   "電子機器（通信）",
   "電子部品 / ガラス / 金属",
   "通信・情報処理",
   "8517.13",
   "8517.13.0000",
   "8517.13.000",
   "Chapter 85",
   "スマートフォン=8517.13。HTS 8517.13.00 stat.00。JP: 8517.13-000(スマートフォン)。その他の携帯電話=8517.14。"⟩,
  ⟨["earphone", "イヤホン", "headphone", "ヘッドホン", "earbuds", "airpods", "ワイヤレスイヤホン"],
   "電子機器（音響）",
   "プラスチック / 金属",
   "音声再生",
   "8518.30",
   "8518.30.2000",
   "8518.30.900",
   "Chapter 85",
   "ヘッドホン・イヤホン=8518.30。HTS 8518.30.20 stat.00。JP: 8518.30-100(ヘッドホン)、8518.30-900(その他=イヤホン等)。"⟩,
  ⟨["laptop", "ノートパソコン", "notebook pc", "ノートPC", "macbook", "chromebook"],
   "電子機器（PC）",
   "電子部品 / 金属 / プラスチック",
   "情報処理",
   "8471.30",
   "8471.30.0100",
   "8471.30.000",
   "Chapter 84",
   "携帯用自動データ処理機械（10kg以下、CPU・キーボード・ディスプレイ内蔵）=8471.30。HTS 8471.30.01 stat.00。"⟩,
  ⟨["tablet", "タブレット", "ipad"],
   "電子機器（タブレット）",
   "電子部品 / ガラス / 金属",
   "情報処理・閲覧",
   "8471.30",
   "8471.30.0100",
   "8471.30.000",
   "Chapter 84",
   "タブレット端末は携帯用自動データ処理機械として8471.30。デスクトップPC=8471.41/49。"⟩,
  ⟨["camera", "カメラ", "デジカメ", "digital camera", "一眼", "ミラーレス"],
   "電子機器（光学）",
   "金属 / ガラス / 電子部品",
   "撮影",
   "8525.81",
   "8525.81.0040",
   "8525.81.000",
   "Chapter 85",
   "テレビジョンカメラ、デジタルカメラ、ビデオカメラレコーダー=8525.81。"⟩,
  ⟨["charger", "充電器", "adapter", "アダプター", "power supply", "電源", "ACアダプター"],
   "電子機器（電源）",
   "プラスチック / 金属",
   "充電・給電",
   "8504.40",
   "8504.40.8500",
   "8504.40.900",
   "Chapter 85",
   "スタティックコンバーター=8504.40。HTS: 8504.40.85(通信機器用)。ADP機器用電源=8504.40.60/70。JP: 8504.40-900(その他)。"⟩,
  ⟨["battery", "バッテリー", "電池", "リチウム", "lithium", "蓄電池", "リチウムイオン", "モバイルバッテリー"],
   "電子機器（蓄電池）",
   "リチウム / 金属",
   "蓄電・給電",
   "8507.60",
   "8507.60.0090",
   "8507.60.000",
   "Chapter 85",
   "リチウムイオン蓄電池=8507.60。HTS 8507.60.00 stat.90(一般消費者向け)。EV用=stat.10。ニッケル水素=8507.50。"⟩,
  ⟨["speaker", "スピーカー", "bluetooth speaker", "ポータブルスピーカー"],
   "電子機器（音響）",
   "プラスチック / 金属",
   "音声再生",
   "8518.22",
   "8518.22.0000",
   "8518.22.000",
   "Chapter 85",
   "複数型拡声器（同一エンクロージャー）=8518.22。単一型=8518.21。JP: 8518.22-000。"⟩,
  ⟨["jewelry", "ジュエリー", "アクセサリー", "necklace", "ネックレス", "ring", "指輪", "リング", "bracelet", "ブレスレット", "earring", "ピアス", "イヤリング", "pendant", "ペンダント"],
   "宝飾品・アクセサリー",
   "貴金属 / 宝石 / 合金",
   "装飾・着用",
   "7117.19",
   "7117.19.9000",
   "7117.19.000",
   "Chapter 71",
   "身辺用模造細貨類（卑金属製）=7117.19。カフスボタン=7117.11。貴金属製の身辺用細貨類は7113。"⟩,
  ⟨["watch", "時計", "腕時計", "ウォッチ", "wristwatch", "スマートウォッチ", "smartwatch"],
   "時計",
   "金属 / ガラス / プラスチック",
   "時刻確認・装飾",
   "9102.12",
   "9102.12.8040",
   "9102.12.000",
   "Chapter 91",
   "電子式腕時計。オプトエレクトロニクス表示部のみ=9102.12(デジタル/スマートウォッチ)、機械式表示部のみ=9102.11(アナログ)。非電子式=9102.21/29。"⟩,
  ⟨["toy", "おもちゃ", "玩具", "ぬいぐるみ", "stuffed", "plush", "フィギュア", "figure", "人形", "doll", "レゴ", "lego"],
   "玩具",
   "プラスチック / 布 / 金属",
   "遊戯・収集",
   "9503.00",
   "9503.00.0080",
   "9503.00.000",
   "Chapter 95",
   "三輪車、人形、その他の玩具、縮尺模型及びパズル=9503.00。JP: 9503.00-000。"⟩,
  ⟨["golf", "ゴルフ", "tennis", "テニス", "racket", "ラケット", "sports equipment", "スポーツ用品", "トレーニング", "training", "ダンベル", "dumbbell", "ヨガ", "yoga"],
   "スポーツ用品",
   "金属 / カーボン / ゴム",
   "スポーツ・運動",
   "9506.91",
   "9506.91.0030",
   "9506.91.000",
   "Chapter 95",
   "身体トレーニング用具、体操用具及び競技用具=9506.91。ゴルフクラブ=9506.31、テニスラケット=9506.51。"⟩,
  ⟨["chair", "椅子", "チェア", "sofa", "ソファ", "stool", "スツール", "座椅子"],
   "家具（座るもの）",
   "木 / 金属 / 布",
   "着座",
   "9401.61",
   "9401.61.6011",
   "9401.61.000",
   "Chapter 94",
   "木製フレーム・アップホルスターの腰掛け=9401.61。金属フレーム=9401.71。JP: 9401.61-000。"⟩,
  ⟨["table", "テーブル", "desk", "デスク", "机", "ダイニングテーブル"],
   "家具（テーブル）",
   "木 / 金属",
   "作業・食事",
   "9403.60",
   "9403.60.8081",
   "9403.60.000",
   "Chapter 94",
   "その他の木製家具=9403.60(テーブル・デスク含む)。事務所用木製家具=9403.30、寝室用=9403.50。"⟩,
  ⟨["bed", "ベッド", "mattress", "マットレス", "布団", "futon"],
   "家具（寝具）",
   "木 / 金属 / ウレタン",
   "睡眠",
   "9404.21",
   "9404.21.0010",
   "9404.21.000",
   "Chapter 94",
   "マットレス（セルラーラバー製又は多泡性プラスチック製）=9404.21。その他材料製=9404.29。布団・ベッドスプレッド=9404.40。"⟩,
  ⟨["lamp", "ランプ", "照明", "light", "ライト", "chandelier", "シャンデリア", "LED"],
   "照明器具",
   "金属 / ガラス / プラスチック",
   "照明",
   "9405.11",
   "9405.11.4010",
   "9405.11.000",
   "Chapter 94",
   "LED光源用天井・壁掛け照明器具=9405.11。卓上・床置き=9405.21/29。非電気式=9405.50。"⟩,
  ⟨["cosmetics", "化粧品", "makeup", "メイク", "ファンデーション", "foundation", "lipstick", "口紅", "リップ", "アイシャドウ", "eyeshadow", "マスカラ", "mascara"],
   "化粧品",
   "化学原料 / 顔料",
   "美容・メイクアップ",
   "3304.10",
   "3304.10.0000",
   "3304.10.000",
   "Chapter 33",
   "唇のメーキャップ用調製品=3304.10。眼のメーキャップ=3304.20。パウダー=3304.91。マニキュア=3304.30。"⟩,
  ⟨["perfume", "香水", "フレグランス", "fragrance", "cologne", "コロン", "eau de toilette", "eau de parfum", "parfum", "edp", "edt"],
   "香水・フレグランス",
   "アルコール / 香料",
   "芳香",
   "3303.00",
   "3303.00.3000",
   "3303.00.000",
   "Chapter 33",
   "香水類及びオーデコロン類=3303.00。JP: 3303.00-000。"⟩,
  ⟨["skincare", "スキンケア", "cream", "クリーム", "lotion", "ローション", "serum", "美容液", "moisturizer", "保湿", "sunscreen", "日焼け止め", "化粧水", "乳液"],
   "スキンケア製品",
   "化学原料 / 植物エキス",
   "肌の手入れ",
   "3304.99",
   "3304.99.5000",
   "3304.99.900",
   "Chapter 33",
   "皮膚の手入れ用調製品（その他）=3304.99。JP: 化粧下=3304.99-100、クリーム=3304.99-200、その他=3304.99-900。"⟩,
  ⟨["shampoo", "シャンプー", "conditioner", "コンディショナー", "hair care", "ヘアケア", "hair oil", "ヘアオイル", "トリートメント", "treatment"],
   "ヘアケア製品",
   "界面活性剤 / 化学原料",
   "頭髪の手入れ",
   "3305.10",
   "3305.10.0000",
   "3305.10.000",
   "Chapter 33",
   "シャンプー=3305.10。ヘアラッカー=3305.30。その他の頭髪用調製品=3305.90。"⟩,
  ⟨["soap", "石鹸", "ソープ", "hand wash", "ハンドソープ", "ボディソープ", "body wash"],
   "石鹸・洗浄剤",
   "界面活性剤 / 油脂",
   "洗浄",
   "3401.30",
   "3401.30.5000",
   "3401.30.000",
   "Chapter 34",
   "有機界面活性剤及びその調製品（皮膚の洗浄に使用する液状・クリーム状のもの）=3401.30。固形石鹸（化粧用）=3401.11。"⟩,
  ⟨["candle", "キャンドル", "ろうそく", "蝋燭", "アロマキャンドル"],
   "ろうそく・キャンドル",
   "ワックス / パラフィン",
   "照明・芳香",
   "3406.00",
   "3406.00.0000",
   "3406.00.000",
   "Chapter 34",
   "ろうそく及びこれに類する物品=3406.00。"⟩,
  ⟨["plastic container", "プラスチック容器", "タッパー", "保存容器", "food container"],
   "プラスチック製品",
   "プラスチック",
   "食品保存・収納",
   "3924.10",
   "3924.10.4000",
   "3924.10.000",
   "Chapter 39",
   "プラスチック製の食卓用品及び台所用品=3924.10。その他の家庭用品=3924.90。"⟩,
  ⟨["stainless", "ステンレス", "水筒", "tumbler", "タンブラー", "flask", "魔法瓶", "thermos"],
   "金属製容器",
   "ステンレス鋼",
   "飲料携行・保温",
   "7323.93",
   "7323.93.0045",
   "7323.93.000",
   "Chapter 73",
   "ステンレス鋼製の食卓用品、台所用品等=7323.93。鋳鉄製=7323.91/92。"⟩,
  ⟨["towel", "タオル", "バスタオル", "ハンドタオル"],
   "繊維製品（タオル）",
   "綿",
   "清拭・乾燥",
   "6302.60",
   "6302.60.0020",
   "6302.60.000",
   "Chapter 63",
   "トイレットリネン及びキッチンリネン（テリータオル地、綿製）=6302.60。"⟩,
  ⟨["blanket", "ブランケット", "毛布"],
   "繊維製品（毛布）",
   "ポリエステル / ウール",
   "防寒・寝具",
   "6301.40",
   "6301.40.0020",
   "6301.40.000",
   "Chapter 63",
   "合成繊維製の毛布=6301.40。綿製=6301.30。羊毛製=6301.20。"⟩,
  ⟨["ceramic", "陶器", "磁器", "cup", "カップ", "mug", "マグカップ", "pottery", "食器", "plate", "皿", "bowl", "ボウル"],
   "陶磁器",
   "磁器 / 陶器",
   "食事・装飾",
   "6912.00",
   "6912.00.4500",
   "6912.00.000",
   "Chapter 69",
   "陶磁製の食卓用品、台所用品等（磁器製を除く）=6912.00。磁器製=6911.10。"⟩,
  ⟨["book", "本", "書籍", "マンガ", "manga", "comic", "雑誌", "magazine"],
   "書籍・印刷物",
   "紙",
   "閲覧・学習",
   "4901.99",
   "4901.99.0092",
   "4901.99.000",
   "Chapter 49",
   "印刷された書籍（その他）=4901.99。辞典・事典=4901.91。単一シート=4901.10。"⟩,
  ⟨["coffee", "コーヒー", "珈琲", "espresso", "カフェ"],
   "飲料（コーヒー）",
   "コーヒー豆",
   "飲用",
   "0901.21",
   "0901.21.0045",
   "0901.21.000",
   "Chapter 09",
   "焙煎コーヒー（カフェイン除去なし）=0901.21。カフェイン除去済み=0901.22。生豆=0901.11。"⟩,
  ⟨["tea", "茶", "お茶", "green tea", "緑茶", "紅茶", "black tea", "抹茶", "matcha"],
   "飲料（茶）",
   "茶葉",
   "飲用",
   "0902.10",
   "0902.10.1010",
   "0902.10.900",
   "Chapter 09",
   "緑茶（3kg以下の包装）=0902.10。JP: 粉末状=0902.10-100、その他=0902.10-900。紅茶=0902.30/40。"⟩,
  ⟨["chocolate", "チョコ", "チョコレート", "cacao", "カカオ", "cocoa"],
   "食品（チョコレート）",
   "カカオ / 砂糖",
   "食用",
   "1806.31",
   "1806.31.0040",
   "1806.31.000",
   "Chapter 18",
   "チョコレート菓子（詰物をしたもの）=1806.31。詰物なし=1806.32。その他チョコレート製品=1806.90。"⟩,
  ⟨["supplement", "サプリ", "サプリメント", "vitamin", "ビタミン", "プロテイン", "protein", "ミネラル", "アミノ酸"],
   "栄養補助食品",
   "各種栄養素",
   "健康維持",
   "2106.90",
   "2106.90.9998",
   "2106.90.300",
   "Chapter 21",
   "調製食料品（その他）=2106.90。JP: ビタミン・ミネラル・アミノ酸等をもととした栄養補助食品=2106.90-300。豆腐=2106.90-200。"⟩,
  ⟨["hat", "帽子", "cap", "キャップ", "ベレー帽", "beret", "ニット帽", "beanie"],
   "帽子類",
   "綿 / ポリエステル / ウール",
   "着用・日除け",
   "6505.00",
   "6505.00.8015",
   "6505.00.000",
   "Chapter 65",
   "メリヤス編み又はクロセ編みの帽子、ヘアネット等=6505.00。フェルト帽子=6505に含む。"⟩,
  ⟨["umbrella", "傘", "日傘", "折り畳み傘", "parasol", "折りたたみ傘"],
   "傘",
   "金属 / ポリエステル",
   "防雨・日除け",
   "6601.99",
   "6601.99.0000",
   "6601.99.000",
   "Chapter 66",
   "傘（その他）=6601.99。折畳み式=6601.91。ビーチパラソル=6601.10。"⟩,
  ⟨["glasses", "メガネ", "眼鏡", "サングラス", "sunglasses"],
   "光学機器（眼鏡）",
   "プラスチック / ガラス / 金属",
   "視力矯正・遮光",
   "9004.10",
   "9004.10.0000",
   "9004.10.000",
   "Chapter 90",
   "サングラス=9004.10。その他の眼鏡（矯正用等）=9004.90。"⟩,
  ⟨["car parts", "自動車部品", "カーパーツ", "タイヤ", "tire", "wheel", "ホイール"],
   "自動車部品",
   "金属 / ゴム",
   "自動車整備",
   "8708.99",
   "8708.99.8180",
   "8708.99.900",
   "Chapter 87",
   "自動車部品（その他）=8708.99。JP: 車輪式トラクター用=8708.99-100、その他=8708.99-900。バンパー=8708.10、ブレーキ=8708.30。"⟩,
  ⟨["wooden", "木製", "cutting board", "まな板", "木箱", "wood"],
   "木製品",
   "木材",
   "家庭用・調理",
   "4419.19",
   "4419.19.0000",
   "4419.19.090",
   "Chapter 44",
   "木製の食卓用品及び台所用品=4419。竹製まな板=4419.11。JP: 漆塗り=4419.19-010、その他=4419.19-090。"⟩,
  ⟨["paper", "紙", "ノート", "notebook", "メモ帳", "便箋", "封筒", "envelope", "ティッシュ", "tissue", "トイレットペーパー", "toilet paper"],
   "紙製品",
   "紙・パルプ",
   "筆記・衛生",
   "4820.10",
   "4820.10.2020",
   "4820.10.000",
   "Chapter 48",
   "帳簿、会計簿、雑記帳、注文帳、便せん、メモ帳等=4820.10。練習帳=4820.20。バインダー=4820.30。"⟩,
  ⟨["knife", "ナイフ", "包丁", "kitchen knife", "刃物", "はさみ", "scissors", "工具", "tool", "ドライバー", "screwdriver", "wrench", "レンチ"],
   "工具・刃物",
   "鋼 / ステンレス",
   "切断・作業",
   "8211.91",
   "8211.91.8060",
   "8211.91.000",
   "Chapter 82",
   "テーブルナイフ（固定刃）=8211.91。その他のナイフ（固定刃）=8211.92。折り畳みナイフ=8211.93。詰合せセット=8211.10。"⟩,
  ⟨["toothbrush", "歯ブラシ", "brush", "ブラシ", "ヘアブラシ"],
   "ブラシ類",
   "プラスチック / ナイロン",
   "清掃・衛生",
   "9603.21",
   "9603.21.0000",
   "9603.21.000",
   "Chapter 96",
   "歯ブラシ（義歯用ブラシを含む）=9603.21。HTS: 2¢ each + Free(特恵)。その他の身体用ブラシ=9603.29。"⟩,
  ⟨["pen", "ペン", "ボールペン", "ballpoint", "万年筆", "fountain pen", "鉛筆", "pencil", "シャープペンシル", "マーカー", "marker"],
   "筆記具",
   "プラスチック / 金属",
   "筆記",
   "9608.10",
   "9608.10.0000",
   "9608.10.900",
   "Chapter 96",
   "ボールペン=9608.10。JP: 油性=9608.10-100、その他=9608.10-900。フェルトペン=9608.20。万年筆=9608.30。シャープペンシル=9608.40。"⟩,
  ⟨["guitar", "ギター", "bass guitar", "ベースギター", "acoustic guitar", "electric guitar", "ukulele", "ウクレレ", "banjo", "mandolin"],
   "弦楽器",
   "木材 / 金属弦",
   "演奏",
   "9202.90",
   "9202.90.2000",
   "9202.90.000",
   "Chapter 92",
   "その他の弦楽器=9202.90。ギター=9202.90。JP: 9202.90-000。バイオリン=9202.10。"⟩,
  ⟨["piano", "ピアノ", "keyboard", "キーボード", "organ", "オルガン", "synthesizer", "シンセサイザー", "accordion", "アコーディオン"],
   "鍵盤楽器",
   "木材 / 金属 / プラスチック",
   "演奏",
   "9201.10",
   "9201.10.0000",
   "9201.10.000",
   "Chapter 92",
   "アップライトピアノ=9201.10。グランドピアノ=9201.20。電子ピアノ・キーボード=9207。JP: 9201.10-000。"⟩,
  ⟨["drum", "ドラム", "percussion", "パーカッション", "cymbal", "シンバル", "snare", "tambourine", "タンバリン", "cajon", "カホン"],
   "打楽器",
   "木材 / 金属 / 皮革",
   "演奏",
   "9206.00",
   "9206.00.4000",
   "9206.00.000",
   "Chapter 92",
   "打楽器=9206.00。ドラムセット、シンバル等。JP: 9206.00-000。"⟩,
  ⟨["trumpet", "トランペット", "saxophone", "サクソフォン", "flute", "フルート", "clarinet", "クラリネット", "trombone", "トロンボーン", "harmonica", "ハーモニカ", "violin", "バイオリン", "cello", "チェロ", "viola"],
   "管楽器・弦楽器",
   "金属 / 木材",
   "演奏",
   "9205.90",
   "9205.90.4000",
   "9205.90.000",
   "Chapter 92",
   "その他の管楽器=9205.90。トランペット=9205.10。フルート=9205.10。バイオリン=9202.10。チェロ=9202.10。JP: 9205.90-000。"⟩,
  ⟨["rug", "ラグ", "carpet", "カーペット", "じゅうたん", "絨毯", "area rug", "runner", "mat", "マット", "persian rug", "kilim", "tapestry", "タペストリー"],
   "じゅうたん・床敷物",
   "羊毛 / 合成繊維 / 綿",
   "床敷・装飾",
   "5703.30",
   "5703.30.2010",
   "5703.30.000",
   "Chapter 57",
   "タフテッドじゅうたん・床用敷物（ナイロン製）=5703.20、その他合成繊維=5703.30。手織り=5701、結びパイル=5701.10。JP: 5703.30-000。"⟩,
  ⟨["drone", "ドローン", "quadcopter", "マルチコプター", "UAV", "unmanned aerial", "camera drone", "racing drone", "fpv drone"],
   "無人航空機（ドローン）",
   "プラスチック / カーボン / 金属",
   "空撮・レース・産業用",
   "8806.10",
   "8806.10.0000",
   "8806.10.000",
   "Chapter 88",
   "無人航空機=8806.10（最大離陸重量250g以下）。250g超2kg以下=8806.21。2kg超25kg以下=8806.22。25kg超150kg以下=8806.23。150kg超=8806.24。JP: 8806.10-000。"⟩,
  ⟨["medicine", "医薬品", "pharmaceutical", "tablet", "capsule", "supplement", "サプリメント", "vitamin", "ビタミン"],
   "医薬品・サプリメント",
   "化学物質 / 天然成分",
   "治療・健康維持",
   "3004.90",
   "3004.90.9290",
   "3004.90.000",
   "Chapter 30",
   "投与量にしたもの又は小売用の形状にした医薬品=3004.90。ビタミン剤=2106.90（食品扱い）の場合あり。JP: 3004.90-000。"⟩,
  ⟨["painting", "絵画", "oil painting", "watercolor", "art print", "lithograph", "リトグラフ", "sculpture", "彫刻", "antique", "アンティーク", "collectible", "コレクティブル"],
   "美術品・収集品",
   "キャンバス / 木 / 石 / 金属",
   "鑑賞・収集",
   "9701.10",
   "9701.10.0000",
   "9701.10.000",
   "Chapter 97",
   "絵画（手描き）=9701.10。版画=9702。彫刻=9703。収集品=9705。骨とう=9706。JP: 9701.10-000。"⟩
]
/-! ## Context detector -/

/-- Python `sorted(_BRAND_CATEGORY.keys(), key=len, reverse=True)`
(src/app.py line 2681): brand tokens, longest first, insertion order kept
among equal lengths (both sorts are stable). -/
def sorted_brand_keys : List String :=
  sortDesc (fun a b => decide (b.length ≤ a.length)) (BRAND_CATEGORY.map Prod.fst)

/-- Count of context words occurring as substrings of the text
(src/app.py line 2698). -/
def countHits (words : List String) (text_lower : String) : Nat :=
  words.countP (fun w => containsSub w text_lower)

/-- Embeds `_detect_context` (src/app.py lines 2657-2709). -/
def detect_context (text : String) : Ctx :=
  let text_lower := lowerStr text
  let brand := sorted_brand_keys.find? (fun b => containsSub b text_lower)
  let brand_chapter := brand.bind (fun b => lookupStr b BRAND_CATEGORY)
  let has_part_number := partNumSearch false text.data || longPartNumSearch false text.data
  let auto_score : ℚ :=
    (if brand_chapter = some ("Chapter 87") then 5.0 else 0)
    + (if has_part_number then 4.0 else 0)
    + (countHits AUTO_CONTEXT_WORDS text_lower : ℕ) * 1.5
  { brand_chapter := brand_chapter
    brand_name := brand
    is_auto := decide (auto_score ≥ 3.0)
    auto_boost := auto_score
    is_electronics := brand_chapter = some ("Chapter 85")
    is_apparel := brand_chapter = some ("Chapter 61")
    is_cosmetics := brand_chapter = some ("Chapter 33")
    is_watch := brand_chapter = some ("Chapter 91")
    has_part_number := has_part_number }

/-! ## Phrase disambiguator and rule scorer -/

/-- Lookup of a keyword's disambiguation entries in `_PHRASE_CONTEXT`. -/
def phraseEntries (word : String) : Option (List (List String × String × ℚ)) :=
  (PHRASE_CONTEXT.find? (fun e => e.1 = word)).map Prod.snd

/-- Embeds `_eval_phrase_context` (src/app.py lines 2727-2739): for each
registered (co-occurrence set, target chapter, base boost) entry, count the
co-occurring words present in the text; a positive count yields
(target chapter, base boost × min(count, 3)). -/
def eval_phrase_context (word text_lower : String) : List (String × ℚ) :=
  match phraseEntries word with
  | none => []
  | some entries =>
      entries.filterMap (fun e =>
        let hits := countHits e.1 text_lower
        if 0 < hits then some (e.2.1, e.2.2 * (min hits 3 : ℕ)) else none)

/-- One step of the best-entry fold of `_score_rule`
(src/app.py lines 2763-2766): keep a strictly larger boost. -/
def best_phrase_step (acc : Option String × ℚ) (p : String × ℚ) : Option String × ℚ :=
  if p.2 > acc.2 then (some p.1, p.2) else acc

/-- The best-entry fold of `_score_rule` (src/app.py lines 2761-2766):
starting from no match and boost 0, keep the first strictly larger boost. -/
def best_phrase (l : List (String × ℚ)) : Option String × ℚ :=
  l.foldl best_phrase_step (none, 0)

/-- One keyword's contribution to a rule's score: the body of the keyword
loop of `_score_rule` (src/app.py lines 2752-2782). -/
def kw_contribution (rule_chapter : String) (is_auto : Bool)
    (text_lower kw : String) : ℚ :=
  let kw_lower := lowerStr kw
  if !match_keyword kw_lower text_lower then 0
  else
    let phrase_results := eval_phrase_context kw_lower text_lower
    if !phrase_results.isEmpty then
      let best := best_phrase phrase_results
      if best.1 = some rule_chapter then 1.0 + best.2 else 0.05
    else if is_auto && (phraseEntries kw_lower).isSome
        && rule_chapter ≠ "Chapter 87" then 0.1
    else 1.0

/-- The accumulated keyword score of `_score_rule`'s loop. -/
def keyword_score (rule : Rule) (text_lower : String) (is_auto : Bool) : ℚ :=
  rule.keywords.foldl
    (fun acc kw => acc + kw_contribution rule.chapter is_auto text_lower kw) 0

/-- The brand-context boost block of `_score_rule`
(src/app.py lines 2784-2805), given the keyword-only base score. -/
def brand_context_boost (ctx : Ctx) (rule_chapter : String) (base : ℚ) : ℚ :=
  match ctx.brand_chapter with
  | none => 0
  | some brand_ch =>
    if brand_ch = "Chapter 87" ∧ rule_chapter = "Chapter 87" then ctx.auto_boost
    else if brand_ch = "Chapter 91" ∧ rule_chapter = "Chapter 91" then 5.0
    else if brand_ch = rule_chapter ∧ 0 < base then 3.0
    else if brand_ch = "Chapter 61" ∧
        (rule_chapter = "Chapter 61" ∨ rule_chapter = "Chapter 62" ∨
         rule_chapter = "Chapter 64" ∨ rule_chapter = "Chapter 63" ∨
         rule_chapter = "Chapter 42") then
      match ctx.brand_name with
      | some brand_name =>
        if SHOE_PRIMARY_BRANDS.contains brand_name then
          if rule_chapter = "Chapter 64" then 3.0
          else if 0 < base then 2.0 else 0
        else if 0 < base then 2.0 else 0
      | none => if 0 < base then 2.0 else 0
    else 0

/-- The part-number boost block of `_score_rule`
(src/app.py lines 2807-2810). -/
def part_number_boost (ctx : Ctx) (rule_chapter : String) : ℚ :=
  if ctx.has_part_number ∧
      (rule_chapter = "Chapter 87" ∨ rule_chapter = "Chapter 84" ∨
       rule_chapter = "Chapter 85") then 3.0
  else 0

/-- Embeds `_score_rule` (src/app.py lines 2742-2812): the keyword loop, then
the brand-context boost on top of the keyword-only base, then the part-number
boost. -/
def score_rule (rule : Rule) (text : String) (ctx : Ctx) : ℚ :=
  let text_lower := lowerStr text
  let base := keyword_score rule text_lower ctx.is_auto
  base + brand_context_boost ctx rule.chapter base + part_number_boost ctx rule.chapter

/-- Embeds `_extract_product_keywords` (src/app.py lines 2815-2847). -/
def extract_product_keywords (product_name : String) (ctx : Ctx) : String :=
  let brandExtra : List String :=
    match ctx.brand_chapter with
    | some brand_ch =>
      if brand_ch = "Chapter 87" then ["car parts 自動車部品 カーパーツ automotive vehicle"]
      else if brand_ch = "Chapter 85" then ["電子機器 electronics device gadget"]
      else if brand_ch = "Chapter 61" then ["衣料品 apparel clothing ファッション"]
      else if brand_ch = "Chapter 33" then ["化粧品 cosmetics beauty スキンケア"]
      else if brand_ch = "Chapter 91" then ["時計 watch wristwatch 腕時計"]
      else []
    | none => []
  let partExtra : List String :=
    if ctx.has_part_number then
      match ctx.brand_chapter with
      | none => ["car parts 自動車部品 automotive industrial"]
      | some brand_ch =>
        if brand_ch = "Chapter 87" then ["car parts 自動車部品"] else []
    else []
  let jdmExtra : List String :=
    if containsSub ("jdm") (lowerStr product_name) then
      ["car parts 自動車部品 automotive vehicle"]
    else []
  let extra := brandExtra ++ partExtra ++ jdmExtra
  if !extra.isEmpty then product_name ++ " " ++ joinSep (" ") extra
  else product_name

/-! ## Marketplace resolver -/

/-- Embeds `_extract_all_category_levels` (src/app.py lines 2517-2528):
split the path on `>`, strip, keep nonempty, lowercase, deepest first. -/
def extract_all_category_levels (category_path : String) : List String :=
  if category_path = "" then []
  else
    (((splitGt category_path).filter (fun p => trimStr p ≠ "")).map
      (fun p => lowerStr (trimStr p))).reverse

/-- The leaf partial-match scan of `_classify_by_ebay_data`
(src/app.py lines 2569-2578): the first leaf-table entry whose key contains,
or is contained in, the leaf string. -/
def leaf_partial_find (leaf : String) : Option (String × String) :=
  EBAY_LEAF_CATEGORY_MAP.find? (fun e => containsSubL e.1.data leaf.data || containsSubL leaf.data e.1.data)

/-- The ancestor fallback loop of `_classify_by_ebay_data`
(src/app.py lines 2580-2595): walk the remaining levels, deepest first; at
each level try the leaf table (confidence 70), then the parent table
(confidence 60). -/
def ancestor_scan : List String → Option (String × ℚ × String)
  | [] => none
  | level :: rest =>
    match lookupStr level EBAY_LEAF_CATEGORY_MAP with
    | some ch => some (ch, 70.0, "eBayカテゴリ(上位): " ++ level ++ " → " ++ ch)
    | none =>
      match lookupStr level EBAY_PARENT_CATEGORY_MAP with
      | some ch => some (ch, 60.0, "eBayカテゴリ(親): " ++ level ++ " → " ++ ch)
      | none => ancestor_scan rest

/-- The taxonomy block of `_classify_by_ebay_data`
(src/app.py lines 2552-2595): leaf exact match (100), leaf partial match
(90), then the ancestor walk, all only for a nonempty category path. -/
def taxonomy_scan (category_path : String) : Option (String × ℚ × String) :=
  if category_path = "" then none
  else
    let levels := extract_all_category_levels category_path
    let leaf := levels.headD ""
    match (if leaf ≠ "" then lookupStr leaf EBAY_LEAF_CATEGORY_MAP else none) with
    | some ch =>
        some (ch, 100.0,
          "eBayカテゴリ(リーフ): " ++ trimStr (lastSegD category_path) ++ " → " ++ ch)
    | none =>
      match (if leaf ≠ "" then leaf_partial_find leaf else none) with
      | some ke =>
          some (ke.2, 90.0,
            "eBayカテゴリ(リーフ部分一致): " ++ trimStr (lastSegD category_path)
              ++ " ≈ " ++ ke.1 ++ " → " ++ ke.2)
      | none => ancestor_scan levels.tail

/-- The Type/Category attribute loop of `_classify_by_ebay_data`
(src/app.py lines 2598-2608), over the fixed field-name priority list. -/
def type_field_scan (specifics : List (String × String)) : List String → Option (String × ℚ × String)
  | [] => none
  | f :: fs =>
    let raw := getSpec specifics f
    let v := lowerStr (trimStr raw)
    if v ≠ "" then
      match lookupStr v ITEM_TYPE_TO_CHAPTER with
      | some ch => some (ch, 80.0, "Item Specifics " ++ f ++ ": " ++ raw ++ " → " ++ ch)
      | none => type_field_scan specifics fs
    else type_field_scan specifics fs

/-- The recognized movement values of the brand tier
(src/app.py lines 2622-2624). -/
def movementValues : List String :=
  ["quartz", "automatic", "mechanical", "solar", "kinetic", "eco-drive"]

/-- The brand-plus-supporting-attributes tier of `_classify_by_ebay_data`
(src/app.py lines 2610-2651): a registered Brand gives its chapter at base
confidence 40, plus 10 for a recognized Movement when the brand chapter is
the watch chapter, plus 3 for any Material, plus 2 for any Department. -/
def brand_support_tier (specifics : List (String × String)) : Option (String × ℚ × String) :=
  let rawBrand := getSpec specifics ("Brand")
  let brand := lowerStr (trimStr rawBrand)
  if brand ≠ "" then
    match lookupStr brand BRAND_CATEGORY with
    | some brand_ch =>
      let score0 : ℚ := 40.0
      let reasons0 : List String := ["ブランド: " ++ rawBrand ++ " → " ++ brand_ch]
      let movement := lowerStr (trimStr (getSpec specifics ("Movement")))
      let movementHit := movement ≠ "" && movementValues.contains movement
      let score1 := if movementHit && brand_ch = "Chapter 91" then score0 + 10.0 else score0
      let reasons1 :=
        if movementHit && brand_ch = "Chapter 91" then
          reasons0 ++ ["Movement: " ++ getSpec specifics ("Movement")]
        else reasons0
      let material := lowerStr (trimStr (getSpec specifics ("Material")))
      let score2 := if material ≠ "" then score1 + 3.0 else score1
      let reasons2 :=
        if material ≠ "" then reasons1 ++ ["Material: " ++ getSpec specifics ("Material")]
        else reasons1
      let dept := lowerStr (trimStr (getSpec specifics ("Department")))
      let score3 := if dept ≠ "" then score2 + 2.0 else score2
      let reasons3 :=
        if dept ≠ "" then reasons2 ++ ["Department: " ++ getSpec specifics ("Department")]
        else reasons2
      some (brand_ch, score3, joinSep (" / ") reasons3)
    | none => none
  else none

/-- Embeds `_classify_by_ebay_data` (src/app.py lines 2531-2654): the
taxonomy block, then the Type/Category attribute fields, then the brand
tier; the first block that succeeds decides, and a miss everywhere yields
`none`. -/
def classify_by_ebay_data (specifics : List (String × String)) (category_path : String) :
    Option (String × ℚ × String) :=
  match taxonomy_scan category_path with
  | some r => some r
  | none =>
    match type_field_scan specifics ["Type", "Category", "Product Type", "Sub-Type"] with
    | some r => some r
    | none => brand_support_tier specifics

/-! ## Fusion, ranking and confidence labeling -/

/-- The score-threshold confidence labeling of `classify_product`
(src/app.py lines 3263-3272): chapter-aware thresholds on the candidate's
score, given the detected brand chapter. -/
def score_label (brand_ch : Option String) (rule_ch : String) (s : ℚ) : String :=
  match brand_ch with
  | some bc =>
    if bc = "Chapter 87" ∧ rule_ch = "Chapter 87" then
      if s ≥ 5.0 then "high" else if s ≥ 3.0 then "medium" else "low"
    else if bc = rule_ch then
      if s ≥ 4.0 then "high" else if s ≥ 2.0 then "medium" else "low"
    else if s ≥ 3.0 then "high" else if s ≥ 2.0 then "medium" else "low"
  | none => if s ≥ 3.0 then "high" else if s ≥ 2.0 then "medium" else "low"

/-- The full confidence labeling of `classify_product`
(src/app.py lines 3246-3272): resolver-agreeing candidates are labeled from
the resolver confidence; disagreeing ones are forced low when the resolver
confidence is at least 60, and otherwise labeled from the candidate's score. -/
def conf_label (eb : Option (String × ℚ × String)) (rule_ch : String) (s : ℚ)
    (brand_ch : Option String) : String :=
  match eb with
  | some r =>
    if rule_ch = r.1 then
      if r.2.1 ≥ 70.0 then "high" else if r.2.1 ≥ 40.0 then "medium" else "low"
    else if r.2.1 ≥ 60.0 then "low"
    else score_label brand_ch rule_ch s
  | none => score_label brand_ch rule_ch s

/-- One output candidate built from a fused (score, rule) pair
(src/app.py lines 3274-3292). -/
def mk_candidate (eb : Option (String × ℚ × String)) (ctx : Ctx) (s : ℚ) (r : Rule) :
    Candidate :=
  let reason :=
    match eb with
    | some e => if r.chapter = e.1 then "[" ++ e.2.2 ++ "] | " ++ r.reason else r.reason
    | none => r.reason
  ⟨r.hs6, r.hts10, r.jp_hs9, r.category, r.material, r.usage, r.chapter, reason,
    conf_label eb r.chapter s ctx.brand_chapter, pyRound1 s⟩

/-- The sentinel "unclassifiable" candidate (src/app.py lines 3296-3310). -/
def sentinel_candidate : Candidate :=
  ⟨"-----.--", "----------", "---------", "不明", "不明", "不明", "N/A",
    "自動分類できませんでした。商品名や説明文をより具体的に入力してください。", "low", 0⟩

/-- Step 2 of `classify_product` (src/app.py lines 3202-3209): keep rules
with positive score, and rules of the resolver's chapter at score 0. -/
def build_scored (text : String) (ctx : Ctx) (ebay_chapter : Option String) :
    List Rule → List (ℚ × Rule)
  | [] => []
  | r :: rest =>
    let s := score_rule r text ctx
    (if 0 < s then [(s, r)]
     else if (match ebay_chapter with
              | some c => c ≠ "" && r.chapter = c
              | none => false) then [(0, r)]
     else []) ++ build_scored text ctx ebay_chapter rest

/-- Step 3 of `classify_product` (src/app.py lines 3216-3233): reinforce
resolver-agreeing rules by the resolver confidence, suppress the rest by a
confidence-graded multiplier. -/
def adjust_scored (ebay_chapter : String) (ebay_confidence : ℚ) :
    List (ℚ × Rule) → List (ℚ × Rule) :=
  List.map (fun p =>
    if p.2.chapter = ebay_chapter then (p.1 + ebay_confidence, p.2)
    else if ebay_confidence ≥ 80.0 then (p.1 * 0.05, p.2)
    else if ebay_confidence ≥ 60.0 then (p.1 * 0.2, p.2)
    else (p.1 * 0.5, p.2))

/-- The descending stable sort key of `scored.sort(key=..., reverse=True)`
(src/app.py line 3235). -/
def scoreGe (a b : ℚ × Rule) : Bool := decide (b.1 ≤ a.1)

/-- Step 4's candidate loop (src/app.py lines 3238-3294): walk the sorted
list, skip already-seen 6-digit codes, stop after three candidates. -/
def pick_candidates (eb : Option (String × ℚ × String)) (ctx : Ctx) :
    List (ℚ × Rule) → List String → Nat → List Candidate
  | [], _, _ => []
  | _ :: _, _, 0 => []
  | (s, r) :: rest, seen, n + 1 =>
    if seen.contains r.hs6 then pick_candidates eb ctx rest seen (n + 1)
    else mk_candidate eb ctx s r :: pick_candidates eb ctx rest (r.hs6 :: seen) n

/-- Step 1 of `classify_product` (src/app.py lines 3189-3191): the resolver
runs only when structured data is present (Python truthiness of the dict and
the path). -/
def pipeline_eb (specifics : List (String × String)) (category_path : String) :
    Option (String × ℚ × String) :=
  if specifics ≠ [] ∨ category_path ≠ "" then classify_by_ebay_data specifics category_path
  else none

/-- The first context pass of Step 2 (src/app.py lines 3194-3195). -/
def pipeline_ctx0 (product_name description : String) : Ctx :=
  detect_context (product_name ++ " " ++ description)

/-- The enhanced combined text of Step 2 (src/app.py lines 3196-3197). -/
def pipeline_combined (product_name description : String) : String :=
  extract_product_keywords product_name (pipeline_ctx0 product_name description)
    ++ " " ++ description

/-- The second context pass of Step 2 (src/app.py line 3198). -/
def pipeline_ctx (product_name description : String) : Ctx :=
  detect_context (pipeline_combined product_name description)

/-- The scored rule list of Step 2 (src/app.py lines 3202-3209). -/
def pipeline_scored (product_name description : String)
    (specifics : List (String × String)) (category_path : String) : List (ℚ × Rule) :=
  build_scored (pipeline_combined product_name description)
    (pipeline_ctx product_name description)
    ((pipeline_eb specifics category_path).map (fun r => r.1))
    CLASSIFICATION_RULES

/-- The fused score list of Step 3 (src/app.py lines 3212-3233). -/
def pipeline_adjusted (product_name description : String)
    (specifics : List (String × String)) (category_path : String) : List (ℚ × Rule) :=
  match pipeline_eb specifics category_path with
  | none => pipeline_scored product_name description specifics category_path
  | some e => adjust_scored e.1 e.2.1
      (pipeline_scored product_name description specifics category_path)

/-- The sorted fused list (src/app.py line 3235). -/
def pipeline_sorted (product_name description : String)
    (specifics : List (String × String)) (category_path : String) : List (ℚ × Rule) :=
  sortDesc scoreGe (pipeline_adjusted product_name description specifics category_path)

/-- The rule-based pipeline of `classify_product`, Steps 1-4
(src/app.py lines 3188-3312): resolver, scoring, fusion, ranking,
deduplication, labeling, and the sentinel fallback (the Python local
`candidates` is inlined). -/
def classify_pipeline (product_name description : String)
    (specifics : List (String × String)) (category_path : String) : List Candidate :=
  if (pick_candidates (pipeline_eb specifics category_path)
      (pipeline_ctx product_name description)
      (pipeline_sorted product_name description specifics category_path) [] 3).isEmpty then
    [sentinel_candidate]
  else
    pick_candidates (pipeline_eb specifics category_path)
      (pipeline_ctx product_name description)
      (pipeline_sorted product_name description specifics category_path) [] 3

/-! ## AI arbitrator wrapper -/

/-- One raw candidate object parsed from the arbitrator's JSON answer: every
field the code reads with `c.get(...)`, absent fields as `none`. -/
structure RawCand where
  hs6 : Option String
  hts : Option String
  jp_hs : Option String
  category : Option String
  material : Option String
  usage : Option String
  chapter : Option String
  reason : Option String
  confidence : Option String
deriving DecidableEq, Repr

/-- The observable outcome of the arbitrator HTTP call, abstracting the
network transport and the JSON text: a non-200 status, a timeout, a JSON
decoding error, any other exception, or a 200 answer whose extracted
`candidates` list is `none` when the brace regex or `json.loads` failed and
`some raws` (possibly empty) otherwise. -/
inductive ClaudeResp where
  | httpError (status : Nat)
  | timeout
  | jsonError
  | netError
  | ok (extracted : Option (List RawCand))
deriving DecidableEq, Repr

/-- The normalization of one raw AI candidate (src/app.py lines 3129-3141):
missing fields become the placeholder values, the reason is prefixed with
`[AI]`, the internal score is 0. -/
def normalize_raw (c : RawCand) : Candidate :=
  ⟨c.hs6.getD "-----.--", c.hts.getD "----------", c.jp_hs.getD "---------",
    c.category.getD "不明", c.material.getD "不明", c.usage.getD "不明",
    c.chapter.getD "N/A", "[AI] " ++ c.reason.getD "Claude AI による判定",
    c.confidence.getD "medium", 0⟩

/-- Embeds the decision logic of `_call_claude_api`
(src/app.py lines 3003-3157) over the abstracted call outcome: `none`
without an API key and on every failure mode (non-200 status, timeout, JSON
errors, other exceptions, unextractable answer, empty candidate list);
otherwise the first three candidates, normalized. -/
def call_claude_api (api_key : Option String) (resp : ClaudeResp) :
    Option (List Candidate) :=
  match api_key with
  | none => none
  | some _ =>
    match resp with
    | .httpError _ => none
    | .timeout => none
    | .jsonError => none
    | .netError => none
    | .ok none => none
    | .ok (some raws) =>
        if raws.isEmpty then none else some ((raws.take 3).map normalize_raw)

/-- Embeds `classify_product` (src/app.py lines 3160-3312): the AI
arbitrator's answer, when an API key is configured and the call yields a
nonempty candidate list, is returned as-is; otherwise the rule-based
pipeline runs. -/
def classify_product (api_key : Option String) (resp : ClaudeResp)
    (product_name description : String) (specifics : List (String × String))
    (category_path : String) : List Candidate :=
  let ai := match api_key with
    | none => none
    | some _ => call_claude_api api_key resp
  match ai with
  | some cs =>
      if cs.isEmpty then classify_pipeline product_name description specifics category_path
      else cs
  | none => classify_pipeline product_name description specifics category_path
/-! ## Specification-side definitions

The five resolver tiers below follow the wording of the specification
(§4.4, "Priority, each tried in order, first success wins"), one definition
per tier, chained by first-success; the refinement theorem for the resolver
compares this chain with `classify_by_ebay_data` as translated from the
source.  `spec_ai_accepts` follows the specification's §4.7 well-formedness
wording for the arbitrator answer. -/

/-- Spec §4.4 tier 1: normalize the deepest path segment and look it up
verbatim in the leaf table, confidence 100. -/
def spec_tier_leaf_exact (category_path : String) : Option (String × ℚ × String) :=
  match (extract_all_category_levels category_path).head? with
  | none => none
  | some leaf =>
    match lookupStr leaf EBAY_LEAF_CATEGORY_MAP with
    | some ch =>
        some (ch, 100.0,
          "eBayカテゴリ(リーフ): " ++ trimStr (lastSegD category_path) ++ " → " ++ ch)
    | none => none

/-- Spec §4.4 tier 2: a leaf string that contains, or is contained in, a
leaf-table key, confidence 90. -/
def spec_tier_leaf_partial (category_path : String) : Option (String × ℚ × String) :=
  match (extract_all_category_levels category_path).head? with
  | none => none
  | some leaf =>
    match leaf_partial_find leaf with
    | some ke =>
        some (ke.2, 90.0,
          "eBayカテゴリ(リーフ部分一致): " ++ trimStr (lastSegD category_path)
            ++ " ≈ " ++ ke.1 ++ " → " ++ ke.2)
    | none => none

/-- Spec §4.4 tier 3: walk the remaining segments deepest-first; a leaf-table
hit gives 70, a parent-table hit 60. -/
def spec_tier_ancestor (category_path : String) : Option (String × ℚ × String) :=
  ancestor_scan (extract_all_category_levels category_path).tail

/-- Spec §4.4 tiers 1-5 chained, first success wins. -/
def spec_resolver (specifics : List (String × String)) (category_path : String) :
    Option (String × ℚ × String) :=
  match spec_tier_leaf_exact category_path with
  | some r => some r
  | none =>
    match spec_tier_leaf_partial category_path with
    | some r => some r
    | none =>
      match spec_tier_ancestor category_path with
      | some r => some r
      | none =>
        match type_field_scan specifics ["Type", "Category", "Product Type", "Sub-Type"] with
        | some r => some r
        | none => brand_support_tier specifics

/-- Spec §4.7's well-formedness condition on an arbitrator answer: a parsed
answer with at least one candidate whose codes are all drawn from the
supplied reference code list.  (The claim under test says the core accepts
an answer only when this holds.) -/
def spec_ai_accepts (ref_codes : List String) (resp : ClaudeResp) : Bool :=
  match resp with
  | .ok (some raws) =>
      !raws.isEmpty && raws.all (fun c => ref_codes.contains (c.hts.getD "----------"))
  | _ => false

/-- A placeholder rule, only the default of the corpus lookups below. -/
def defaultRule : Rule := ⟨[], "", "", "", "", "", "", "", ""⟩

/-- The knitwear rule of the corpus (hs6 6110.20, Chapter 61). -/
def rule_6110 : Rule :=
  (CLASSIFICATION_RULES.find? (fun r => r.hs6 = "6110.20")).getD defaultRule

/-- The smartphone rule of the corpus (hs6 8517.13, Chapter 85). -/
def rule_8517 : Rule :=
  (CLASSIFICATION_RULES.find? (fun r => r.hs6 = "8517.13")).getD defaultRule

/-- A raw arbitrator candidate carrying a code that appears in no reference
list, used to exhibit that the acceptance logic never checks codes. -/
def offListRaw : RawCand :=
  ⟨some ("9999.99"), some ("9999.99.99"), some ("9999.99.999"), some ("架空"),
    some ("架空"), some ("架空"), some ("Chapter 99"), some ("架空の判定"),
    some ("high")⟩

/-- The category path of the specification's leaf-precedence test case. -/
def wristwatchPath : String :=
  "Jewelry & Watches > Watches, Parts & Accessories > Watches > Wristwatches"
/-! ## Generic lemmas about the embedding -/

/-- `classify_product` without an API key is exactly the rule-based
pipeline, whatever the (never performed) call would have answered. -/
theorem classify_product_none (resp : ClaudeResp) (n d : String)
    (s : List (String × String)) (p : String) :
    classify_product none resp n d s p = classify_pipeline n d s p := rfl

/-- Lowercasing keeps a string nonempty. -/
theorem lowerStr_ne_empty {s : String} (h : s ≠ "") : lowerStr s ≠ "" := by
  intro he
  apply h
  have hd : (s.data.map lowerChar) = ([] : List Char) := congrArg String.data he
  have hs : s.data = [] := List.map_eq_nil_iff.mp hd
  cases s with
  | mk d =>
    have hd' : d = [] := hs
    subst hd'
    rfl

/-- Every level the category-path splitter returns is nonempty. -/
theorem levels_ne_empty (p x : String) (hx : x ∈ extract_all_category_levels p) :
    x ≠ "" := by
  unfold extract_all_category_levels at hx
  by_cases hp : p = ""
  · simp [hp] at hx
  · rw [if_neg hp] at hx
    rw [List.mem_reverse, List.mem_map] at hx
    obtain ⟨q, hq, rfl⟩ := hx
    rw [List.mem_filter] at hq
    exact lowerStr_ne_empty (by simpa using hq.2)

/-- Membership in a stable descending insertion. -/
theorem mem_insertByDesc {α : Type} (ge : α → α → Bool) (x y : α) (l : List α) :
    y ∈ insertByDesc ge x l ↔ y = x ∨ y ∈ l := by
  induction l with
  | nil => simp [insertByDesc]
  | cons a as ih =>
    unfold insertByDesc
    split
    · simp
    · simp [ih]
      tauto

/-- Inserting into a descending-sorted score list keeps it sorted. -/
theorem insertByDesc_pairwise (x : ℚ × Rule) (l : List (ℚ × Rule))
    (h : List.Pairwise (fun a b : ℚ × Rule => b.1 ≤ a.1) l) :
    List.Pairwise (fun a b : ℚ × Rule => b.1 ≤ a.1) (insertByDesc scoreGe x l) := by
  induction l with
  | nil => simp [insertByDesc]
  | cons a as ih =>
    rw [List.pairwise_cons] at h
    unfold insertByDesc
    split
    · rename_i hge
      have hax : a.1 ≤ x.1 := by simpa [scoreGe] using hge
      refine List.Pairwise.cons ?_ (List.Pairwise.cons h.1 h.2)
      intro z hz
      rcases List.mem_cons.mp hz with rfl | hz
      · exact hax
      · exact le_trans (h.1 z hz) hax
    · rename_i hge
      have hxa : x.1 ≤ a.1 := le_of_not_le (by simpa [scoreGe] using hge)
      refine List.Pairwise.cons ?_ (ih h.2)
      intro z hz
      rcases (mem_insertByDesc scoreGe x z as).mp hz with rfl | hz
      · exact hxa
      · exact h.1 z hz

/-- The stable descending sort yields a descending-sorted score list. -/
theorem sortDesc_pairwise (l : List (ℚ × Rule)) :
    List.Pairwise (fun a b : ℚ × Rule => b.1 ≤ a.1) (sortDesc scoreGe l) := by
  induction l with
  | nil => simp [sortDesc]
  | cons a as ih =>
    simp only [sortDesc]
    exact insertByDesc_pairwise a _ ih

/-- The rounded score is monotone: `ratFloor` agrees with the integer
floor. -/
theorem ratFloor_eq_floor (q : ℚ) : ratFloor q = ⌊q⌋ := by
  rw [Rat.floor_def, ratFloor, Int.fdiv_eq_ediv _ (Int.ofNat_nonneg q.den)]

/-- `pyRound1` is monotone, so ranking survives the score rounding. -/
theorem pyRound1_mono {a b : ℚ} (h : a ≤ b) : pyRound1 a ≤ pyRound1 b := by
  unfold pyRound1
  have h1 : ratFloor (10 * a + mkRat 1 2) ≤ ratFloor (10 * b + mkRat 1 2) := by
    rw [ratFloor_eq_floor, ratFloor_eq_floor]
    apply Int.floor_le_floor
    linarith
  have h2 : ((ratFloor (10 * a + mkRat 1 2) : ℤ) : ℚ) ≤ ratFloor (10 * b + mkRat 1 2) := by
    exact_mod_cast h1
  have h3 : (0 : ℚ) ≤ mkRat 1 10 := by decide
  exact mul_le_mul_of_nonneg_right h2 h3

/-- Every candidate the Step-4 loop emits comes from a pair of its input
list. -/
theorem pick_candidates_mem (eb : Option (String × ℚ × String)) (ctx : Ctx) :
    ∀ (l : List (ℚ × Rule)) (seen : List String) (n : Nat) (c : Candidate),
      c ∈ pick_candidates eb ctx l seen n →
      ∃ p ∈ l, c = mk_candidate eb ctx p.1 p.2 := by
  intro l
  induction l with
  | nil => intro seen n c hc; simp [pick_candidates] at hc
  | cons a rest ih =>
    intro seen n c hc
    obtain ⟨s, r⟩ := a
    cases n with
    | zero => simp [pick_candidates] at hc
    | succ m =>
      simp only [pick_candidates] at hc
      split at hc
      · obtain ⟨p, hp, he⟩ := ih _ _ _ hc
        exact ⟨p, List.mem_cons_of_mem _ hp, he⟩
      · rcases List.mem_cons.mp hc with rfl | hc
        · exact ⟨(s, r), List.mem_cons_self _ _, rfl⟩
        · obtain ⟨p, hp, he⟩ := ih _ _ _ hc
          exact ⟨p, List.mem_cons_of_mem _ hp, he⟩

/-- The Step-4 loop keeps the input's descending score order (through the
monotone rounding). -/
theorem pick_candidates_pairwise (eb : Option (String × ℚ × String)) (ctx : Ctx) :
    ∀ (l : List (ℚ × Rule)) (seen : List String) (n : Nat),
      List.Pairwise (fun a b : ℚ × Rule => b.1 ≤ a.1) l →
      List.Pairwise (fun c d : Candidate => d.score ≤ c.score)
        (pick_candidates eb ctx l seen n) := by
  intro l
  induction l with
  | nil => intro seen n _; simp [pick_candidates]
  | cons a rest ih =>
    intro seen n h
    obtain ⟨s, r⟩ := a
    rw [List.pairwise_cons] at h
    cases n with
    | zero => simp [pick_candidates]
    | succ m =>
      simp only [pick_candidates]
      split
      · exact ih _ _ h.2
      · refine List.Pairwise.cons ?_ (ih _ _ h.2)
        intro c hc
        obtain ⟨p, hp, rfl⟩ := pick_candidates_mem eb ctx _ _ _ _ hc
        show pyRound1 p.1 ≤ pyRound1 s
        exact pyRound1_mono (h.1 p hp)

/-- The Step-4 loop emits at most `n` candidates. -/
theorem pick_candidates_length (eb : Option (String × ℚ × String)) (ctx : Ctx) :
    ∀ (l : List (ℚ × Rule)) (seen : List String) (n : Nat),
      (pick_candidates eb ctx l seen n).length ≤ n := by
  intro l
  induction l with
  | nil => intro seen n; simp [pick_candidates]
  | cons a rest ih =>
    intro seen n
    obtain ⟨s, r⟩ := a
    cases n with
    | zero => simp [pick_candidates]
    | succ m =>
      simp only [pick_candidates]
      split
      · exact ih _ _
      · simpa using ih _ _

/-- The Step-4 loop never repeats a 6-digit code, and never emits one it was
told is already seen. -/
theorem pick_candidates_nodup (eb : Option (String × ℚ × String)) (ctx : Ctx) :
    ∀ (l : List (ℚ × Rule)) (seen : List String) (n : Nat),
      ((pick_candidates eb ctx l seen n).map (fun c => c.hs6)).Nodup ∧
        ∀ c ∈ pick_candidates eb ctx l seen n, c.hs6 ∉ seen := by
  intro l
  induction l with
  | nil => intro seen n; simp [pick_candidates]
  | cons a rest ih =>
    intro seen n
    obtain ⟨s, r⟩ := a
    cases n with
    | zero => simp [pick_candidates]
    | succ m =>
      simp only [pick_candidates]
      split
      · exact ih _ _
      · rename_i hseen
        have hs : r.hs6 ∉ seen := by simpa using hseen
        obtain ⟨hnd, hmem⟩ := ih (r.hs6 :: seen) m
        constructor
        · rw [List.map_cons, List.nodup_cons]
          refine ⟨?_, hnd⟩
          rw [List.mem_map]
          rintro ⟨c, hc, hceq⟩
          exact hmem c hc (hceq ▸ List.mem_cons_self _ _)
        · intro c hc
          rcases List.mem_cons.mp hc with rfl | hc
          · exact hs
          · intro habs
            exact hmem c hc (List.mem_cons_of_mem _ habs)

/-- Step 2 produces nothing when no rule scores positive and there is no
resolver chapter. -/
theorem build_scored_nil (text : String) (ctx : Ctx) :
    ∀ rules : List Rule,
      (∀ r ∈ rules, ¬ (0 < score_rule r text ctx)) →
      build_scored text ctx none rules = [] := by
  intro rules
  induction rules with
  | nil => intro _; rfl
  | cons a rest ih =>
    intro h
    simp only [build_scored]
    rw [if_neg (h a (List.mem_cons_self _ _))]
    simpa using ih (fun r hr => h r (List.mem_cons_of_mem _ hr))

/-- Step 2 keeps a zero-scoring rule whenever its chapter matches the
resolver's (nonempty) chapter. -/
theorem build_scored_zero_mem (text : String) (ctx : Ctx) (ch : String) :
    ∀ rules : List Rule, ∀ r ∈ rules,
      ¬ (0 < score_rule r text ctx) → r.chapter = ch → ch ≠ "" →
      (0, r) ∈ build_scored text ctx (some ch) rules := by
  intro rules
  induction rules with
  | nil => intro r hr; simp at hr
  | cons a rest ih =>
    intro r hr hs hch hne
    simp only [build_scored]
    rcases List.mem_cons.mp hr with rfl | hr
    · simp [hs, hch, hne]
    · exact List.mem_append_right _ (ih r hr hs hch hne)
/-- The source's taxonomy block is the spec's tiers 1-3 chained
first-success. -/
theorem taxonomy_scan_eq (p : String) :
    taxonomy_scan p =
      (match spec_tier_leaf_exact p with
       | some r => some r
       | none =>
         match spec_tier_leaf_partial p with
         | some r => some r
         | none => spec_tier_ancestor p) := by
  by_cases hp : p = ""
  · subst hp
    rfl
  · unfold taxonomy_scan spec_tier_leaf_exact spec_tier_leaf_partial spec_tier_ancestor
    rw [if_neg hp]
    cases hlv : extract_all_category_levels p with
    | nil => simp [hlv, ancestor_scan]
    | cons a as =>
      have ha : a ≠ "" := levels_ne_empty p a (hlv ▸ List.mem_cons_self a as)
      simp only [hlv, List.headD, List.head?, List.tail]
      rw [if_pos ha]
      cases lookupStr a EBAY_LEAF_CATEGORY_MAP with
      | some ch => rfl
      | none =>
        rw [if_pos ha]
        cases leaf_partial_find a with
        | some ke => rfl
        | none => rfl

/-- Suppression at resolver confidence below 60 is exactly the factor 0.5
(the stricter 0.05 and 0.2 branches cannot fire). -/
theorem adjust_scored_low (ch : String) (conf : ℚ) (hlt : conf < 60.0)
    (l : List (ℚ × Rule)) :
    adjust_scored ch conf l = l.map (fun p =>
      if p.2.chapter = ch then (p.1 + conf, p.2) else (p.1 * 0.5, p.2)) := by
  unfold adjust_scored
  apply List.map_congr_left
  intro p _
  by_cases h1 : p.2.chapter = ch
  · simp [h1]
  · rw [if_neg h1, if_neg h1,
      if_neg (by linarith : ¬ conf ≥ 80.0), if_neg (by linarith : ¬ conf ≥ 60.0)]

/-- With a resolver result of confidence below 60, a disagreeing candidate
is labeled from its score, exactly as with no resolver result at all. -/
theorem conf_label_low (ch : String) (conf : ℚ) (re : String) (rc : String)
    (s : ℚ) (bc : Option String) (hne : rc ≠ ch) (hlt : conf < 60.0) :
    conf_label (some (ch, conf, re)) rc s bc = score_label bc rc s := by
  unfold conf_label
  dsimp only
  rw [if_neg hne, if_neg (by linarith : ¬ conf ≥ 60.0)]

/-- C1: the marketplace resolver tries its tiers in the spec's fixed order
with first success winning — it equals the five-tier chain (leaf exact 100,
leaf partial 90, ancestor walk 70/60, attribute fields 80, brand base 40) —
and on the wristwatch category path it returns Chapter 91 at confidence 100
for every attribute map. -/
theorem ebay_resolver_tier_order :
    (∀ (specifics : List (String × String)) (category_path : String),
      classify_by_ebay_data specifics category_path =
        spec_resolver specifics category_path)
    ∧ (∀ specifics : List (String × String),
      classify_by_ebay_data specifics wristwatchPath =
        some ("Chapter 91", 100.0,
          "eBayカテゴリ(リーフ): Wristwatches → Chapter 91")) := by
  constructor
  · intro s p
    unfold classify_by_ebay_data spec_resolver
    rw [taxonomy_scan_eq]
    cases spec_tier_leaf_exact p with
    | some r => rfl
    | none =>
      cases spec_tier_leaf_partial p with
      | some r => rfl
      | none =>
        cases spec_tier_ancestor p with
        | some r => rfl
        | none => rfl
  · intro s
    have h : taxonomy_scan wristwatchPath =
        some ("Chapter 91", 100.0,
          "eBayカテゴリ(リーフ): Wristwatches → Chapter 91") := by decide
    unfold classify_by_ebay_data
    rw [h]

/-- C9: brand detection is a bare substring test with no word boundary: the
text `ceramic` contains no brand as a separate word, yet the context
detector reports the automotive brand `ram` with Chapter 87, automotive
support score 5 and the automotive flag set. -/
theorem brand_substring_false_positive :
    detect_context ("ceramic") =
      ⟨some ("Chapter 87"), some ("ram"), true, 5, false, false, false, false, false⟩
    ∧ containsSub ("ram") ("ceramic") = true
    ∧ match_keyword ("ram") ("ceramic") = false
    ∧ (detect_context ("ceramic")).auto_boost ≥ 5.0
    ∧ (detect_context ("ceramic")).is_auto = true := by
  have h : detect_context ("ceramic") =
      ⟨some ("Chapter 87"), some ("ram"), true, 5, false, false, false, false, false⟩ := by
    decide
  refine ⟨h, by decide, by decide, ?_, by rw [h]⟩
  rw [h]
  show (5 : ℚ) ≥ 5.0
  norm_num

/-- C10: a brand-tier resolver verdict carries confidence between 40 and 55
(40 base, +10 for a recognized Movement only on the watch chapter, +3 for a
Material, +2 for a Department), hence below 60: it never triggers the 0.05
or 0.2 suppression multipliers nor the forced-low labeling of contradicted
candidates; and the resolver falls through to this tier exactly when the
taxonomy and attribute scans both fail. -/
theorem brand_tier_confidence_bounds :
    (∀ (specifics : List (String × String)) (ch : String) (conf : ℚ) (r : String),
      brand_support_tier specifics = some (ch, conf, r) →
      (40.0 ≤ conf ∧ conf ≤ 55.0) ∧ conf < 60.0
      ∧ (∀ l : List (ℚ × Rule), adjust_scored ch conf l = l.map (fun p =>
          if p.2.chapter = ch then (p.1 + conf, p.2) else (p.1 * 0.5, p.2)))
      ∧ (∀ (rc : String) (s : ℚ) (bc : Option String), rc ≠ ch →
          conf_label (some (ch, conf, r)) rc s bc = score_label bc rc s))
    ∧ (∀ (specifics : List (String × String)) (path : String),
      taxonomy_scan path = none →
      type_field_scan specifics ["Type", "Category", "Product Type", "Sub-Type"] = none →
      classify_by_ebay_data specifics path = brand_support_tier specifics) := by
  constructor
  · intro specifics ch conf r h
    have hb : 40.0 ≤ conf ∧ conf ≤ 55.0 := by
      unfold brand_support_tier at h
      dsimp only at h
      split at h
      · split at h
        · split_ifs at h <;>
            (rw [Option.some.injEq, Prod.mk.injEq, Prod.mk.injEq] at h;
             obtain ⟨-, hsc, -⟩ := h; rw [← hsc]; norm_num)
        · exact absurd h (by simp)
      · exact absurd h (by simp)
    have hlt : conf < 60.0 := by linarith [hb.2]
    exact ⟨hb, hlt, fun l => adjust_scored_low ch conf hlt l,
      fun rc s bc hne => conf_label_low ch conf r rc s bc hne hlt⟩
  · intro specifics path h1 h2
    unfold classify_by_ebay_data
    rw [h1, h2]

/-- Closed instance for C10: a lone registered Brand attribute (Rolex)
reaches the brand tier at confidence exactly 40, inside the stated
bounds. -/
theorem brand_tier_confidence_bounds_witness :
    (40.0 ≤ (40.0 : ℚ) ∧ (40.0 : ℚ) ≤ 55.0) ∧ (40.0 : ℚ) < 60.0 := by
  have h := brand_tier_confidence_bounds.1 [("Brand", "Rolex")]
    ("Chapter 91") (40.0) ("ブランド: Rolex → Chapter 91") (by decide)
  exact ⟨h.1, h.2.1⟩
/-- C2: with a resolver result, fusion adds the resolver confidence to every
agreeing rule's score and multiplies every disagreeing rule's score by 0.05
(confidence ≥ 80), 0.2 (≥ 60) or 0.5 (otherwise); zero-scoring rules of the
resolver's chapter are still included; and at confidence 100 a disagreeing
rule's fused score is exactly 0.05 times — hence at most 5% of — its unfused
score. -/
theorem fusion_reinforce_suppress :
    ∀ (name desc : String) (specifics : List (String × String)) (path ch : String)
      (conf : ℚ) (reason : String),
      pipeline_eb specifics path = some (ch, conf, reason) →
      (pipeline_adjusted name desc specifics path =
        (pipeline_scored name desc specifics path).map (fun p =>
          if p.2.chapter = ch then (p.1 + conf, p.2)
          else if conf ≥ 80.0 then (p.1 * 0.05, p.2)
          else if conf ≥ 60.0 then (p.1 * 0.2, p.2)
          else (p.1 * 0.5, p.2)))
      ∧ (∀ r ∈ CLASSIFICATION_RULES,
          ¬ (0 < score_rule r (pipeline_combined name desc) (pipeline_ctx name desc)) →
          r.chapter = ch → ch ≠ "" →
          (0, r) ∈ pipeline_scored name desc specifics path)
      ∧ (conf = 100.0 →
          ∀ p ∈ pipeline_adjusted name desc specifics path, p.2.chapter ≠ ch →
          ∃ q ∈ pipeline_scored name desc specifics path,
            p = (q.1 * 0.05, q.2) ∧ p.1 ≤ 0.05 * q.1) := by
  intro name desc specifics path ch conf reason h
  have hA : pipeline_adjusted name desc specifics path =
      (pipeline_scored name desc specifics path).map (fun p =>
        if p.2.chapter = ch then (p.1 + conf, p.2)
        else if conf ≥ 80.0 then (p.1 * 0.05, p.2)
        else if conf ≥ 60.0 then (p.1 * 0.2, p.2)
        else (p.1 * 0.5, p.2)) := by
    unfold pipeline_adjusted
    rw [h]
    rfl
  refine ⟨hA, ?_, ?_⟩
  · intro r hr hs hch hne
    have hm : (pipeline_eb specifics path).map (fun r => r.1) = some ch := by
      rw [h]
      rfl
    unfold pipeline_scored
    rw [hm]
    exact build_scored_zero_mem _ _ ch CLASSIFICATION_RULES r hr hs hch hne
  · intro h100 p hp hne
    rw [hA, List.mem_map] at hp
    obtain ⟨q, hq, hpe⟩ := hp
    subst h100
    by_cases hqch : q.2.chapter = ch
    · exfalso
      apply hne
      rw [← hpe]
      simp [hqch]
    · have hpq : p = (q.1 * 0.05, q.2) := by
        rw [← hpe]
        rw [if_neg hqch, if_pos (by norm_num : (100.0 : ℚ) ≥ 80.0)]
      refine ⟨q, hq, hpq, ?_⟩
      rw [hpq]
      exact le_of_eq (mul_comm _ _)

/-- Closed instance for C2: a brand-tier resolver verdict (Rolex, Chapter
91, confidence 40) fuses the scored list exactly by the stated formula. -/
theorem fusion_reinforce_suppress_witness :
    pipeline_adjusted ("sweater") ("") [("Brand", "Rolex")] ("") =
      (pipeline_scored ("sweater") ("") [("Brand", "Rolex")] ("")).map (fun p =>
        if p.2.chapter = "Chapter 91" then (p.1 + 40.0, p.2)
        else if (40.0 : ℚ) ≥ 80.0 then (p.1 * 0.05, p.2)
        else if (40.0 : ℚ) ≥ 60.0 then (p.1 * 0.2, p.2)
        else (p.1 * 0.5, p.2)) :=
  (fusion_reinforce_suppress ("sweater") ("") [("Brand", "Rolex")] ("")
    ("Chapter 91") (40.0) ("ブランド: Rolex → Chapter 91") (by decide)).1

/-- C3: with no AI arbitrator configured, classification always returns one
to three candidates, sorted by non-increasing fused score, with each 6-digit
code at most once; and when no rule scored positive and the resolver
produced nothing, it returns exactly the single sentinel candidate. -/
theorem classify_output_shape :
    ∀ (resp : ClaudeResp) (name desc : String) (specifics : List (String × String))
      (path : String),
      (1 ≤ (classify_product none resp name desc specifics path).length
        ∧ (classify_product none resp name desc specifics path).length ≤ 3)
      ∧ List.Pairwise (fun c d : Candidate => d.score ≤ c.score)
          (classify_product none resp name desc specifics path)
      ∧ ((classify_product none resp name desc specifics path).map (fun c => c.hs6)).Nodup
      ∧ ((∀ r ∈ CLASSIFICATION_RULES,
            ¬ (0 < score_rule r (pipeline_combined name desc) (pipeline_ctx name desc))) →
          pipeline_eb specifics path = none →
          classify_product none resp name desc specifics path = [sentinel_candidate]) := by
  intro resp name desc specifics path
  rw [classify_product_none]
  unfold classify_pipeline
  by_cases hemp : (pick_candidates (pipeline_eb specifics path)
      (pipeline_ctx name desc) (pipeline_sorted name desc specifics path) [] 3).isEmpty = true
  · rw [if_pos hemp]
    exact ⟨⟨by simp, by simp⟩, by simp, by simp, fun _ _ => rfl⟩
  · rw [if_neg hemp]
    have hne : pick_candidates (pipeline_eb specifics path)
        (pipeline_ctx name desc) (pipeline_sorted name desc specifics path) [] 3 ≠ [] := by
      intro h0
      rw [h0] at hemp
      exact hemp rfl
    have hps : List.Pairwise (fun a b : ℚ × Rule => b.1 ≤ a.1)
        (pipeline_sorted name desc specifics path) := by
      unfold pipeline_sorted
      exact sortDesc_pairwise _
    refine ⟨⟨?_, pick_candidates_length _ _ _ _ _⟩,
      pick_candidates_pairwise _ _ _ _ _ hps,
      (pick_candidates_nodup _ _ _ _ _).1, ?_⟩
    · have := List.length_pos.mpr hne
      omega
    · intro hall heb
      have hsc : pipeline_scored name desc specifics path = [] := by
        unfold pipeline_scored
        rw [heb]
        exact build_scored_nil _ _ CLASSIFICATION_RULES hall
      have hadj : pipeline_adjusted name desc specifics path = [] := by
        unfold pipeline_adjusted
        rw [heb]
        exact hsc
      have hsort : pipeline_sorted name desc specifics path = [] := by
        unfold pipeline_sorted
        rw [hadj]
        rfl
      rw [hsort] at hemp
      exact absurd rfl hemp

/-- Closed instance for C3's sentinel branch: a no-signal input yields
exactly the sentinel candidate. -/
theorem classify_output_shape_witness :
    classify_product none (ClaudeResp.timeout) ("xyz") ("") [] ("") =
      [sentinel_candidate] :=
  (classify_output_shape (ClaudeResp.timeout) ("xyz") ("") [] ("")).2.2.2
    (by decide) (by decide)

/-- C4 (amended): the arbitrator's answer, when an API key is configured and
the answer parses to a nonempty candidate list, is returned as the final
result — with no code-list validation — and every failure mode (no key,
non-success status, timeout, JSON errors, other exceptions, unparseable
answer, empty candidate list) falls back entirely to the rule-based
pipeline; AI and rule scores are never blended. -/
theorem ai_first_available_wins :
    (∀ (resp : ClaudeResp) (n d : String) (s : List (String × String)) (p : String),
      classify_product none resp n d s p = classify_pipeline n d s p)
    ∧ (∀ k : String,
        call_claude_api (some k) ClaudeResp.timeout = none
        ∧ call_claude_api (some k) ClaudeResp.jsonError = none
        ∧ call_claude_api (some k) ClaudeResp.netError = none
        ∧ (∀ st : Nat, call_claude_api (some k) (ClaudeResp.httpError st) = none)
        ∧ call_claude_api (some k) (ClaudeResp.ok none) = none
        ∧ call_claude_api (some k) (ClaudeResp.ok (some [])) = none)
    ∧ (∀ (k : String) (raws : List RawCand), raws ≠ [] →
        call_claude_api (some k) (ClaudeResp.ok (some raws)) =
          some ((raws.take 3).map normalize_raw))
    ∧ (∀ (k : String) (resp : ClaudeResp) (n d : String)
        (s : List (String × String)) (p : String),
        call_claude_api (some k) resp = none →
        classify_product (some k) resp n d s p = classify_pipeline n d s p)
    ∧ (∀ (k : String) (raws : List RawCand) (n d : String)
        (s : List (String × String)) (p : String), raws ≠ [] →
        classify_product (some k) (ClaudeResp.ok (some raws)) n d s p =
          (raws.take 3).map normalize_raw) := by
  have h3 : ∀ (k : String) (raws : List RawCand), raws ≠ [] →
      call_claude_api (some k) (ClaudeResp.ok (some raws)) =
        some ((raws.take 3).map normalize_raw) := by
    intro k raws h
    unfold call_claude_api
    dsimp only
    rw [if_neg (by simpa using h)]
  have h4 : ∀ (k : String) (resp : ClaudeResp) (n d : String)
      (s : List (String × String)) (p : String),
      call_claude_api (some k) resp = none →
      classify_product (some k) resp n d s p = classify_pipeline n d s p := by
    intro k resp n d s p h
    unfold classify_product
    dsimp only
    rw [h]
  have h5 : ∀ (k : String) (raws : List RawCand) (n d : String)
      (s : List (String × String)) (p : String), raws ≠ [] →
      classify_product (some k) (ClaudeResp.ok (some raws)) n d s p =
        (raws.take 3).map normalize_raw := by
    intro k raws n d s p h
    unfold classify_product
    dsimp only
    rw [h3 k raws h]
    have hemp : ((raws.take 3).map normalize_raw).isEmpty = false := by
      rcases raws with _ | ⟨a, rest⟩
      · exact absurd rfl h
      · rfl
    have hcond : ¬ (((raws.take 3).map normalize_raw).isEmpty = true) := by
      rw [hemp]
      exact Bool.false_ne_true
    dsimp only
    rw [if_neg hcond]
  exact ⟨fun resp n d s p => rfl,
    fun k => ⟨rfl, rfl, rfl, fun st => rfl, rfl, rfl⟩, h3, h4, h5⟩

/-- Counterexample for C4 as stated: an arbitrator answer whose code appears
in no reference list is nevertheless accepted and returned as the final
result — the acceptance logic performs no "codes drawn from the reference
list" check, so well-formedness in the spec's sense is not required. -/
theorem ai_acceptance_unchecked_codes_cex :
    call_claude_api (some ("key")) (ClaudeResp.ok (some [offListRaw])) =
      some [normalize_raw offListRaw]
    ∧ spec_ai_accepts ["6109.10.0012", "6110.20.2075"]
        (ClaudeResp.ok (some [offListRaw])) = false
    ∧ classify_product (some ("key")) (ClaudeResp.ok (some [offListRaw]))
        ("Men's Cotton T-Shirt") ("") [] ("") = [normalize_raw offListRaw] := by
  exact ⟨rfl, by decide, rfl⟩

/-- C8 (amended): an empty product name with no description is not rejected
and not signalled distinctly: classification returns the very same single
"unclassifiable" sentinel that an unmatched text produces. -/
theorem empty_input_same_sentinel :
    (∀ resp : ClaudeResp,
      classify_product none resp ("") ("") [] ("") = [sentinel_candidate])
    ∧ (∀ resp : ClaudeResp,
      classify_product none resp ("") ("") [] ("") =
        classify_product none resp ("xyz123 unknown widget") ("") [] ("")) := by
  have h1 : classify_pipeline ("") ("") [] ("") = [sentinel_candidate] := by decide
  have h2 : classify_pipeline ("xyz123 unknown widget") ("") [] ("") =
      [sentinel_candidate] := by decide
  constructor
  · intro resp
    rw [classify_product_none]
    exact h1
  · intro resp
    rw [classify_product_none, classify_product_none, h1, h2]

/-- Counterexample for C8 as stated: the empty input and the spec's
"unclassifiable" example input produce the identical sentinel answer, so no
distinct signal exists for "no text to classify". -/
theorem empty_input_not_distinguished_cex :
    classify_product none (ClaudeResp.timeout) ("") ("") [] ("") =
      [sentinel_candidate]
    ∧ classify_product none (ClaudeResp.timeout) ("xyz123 unknown widget") ("") [] ("") =
      [sentinel_candidate] := by
  constructor
  · rw [classify_product_none]
    decide
  · rw [classify_product_none]
    decide
/-- Every registered base boost of the phrase-context table is positive. -/
theorem phrase_boosts_pos :
    ∀ e ∈ PHRASE_CONTEXT, ∀ t ∈ e.2, (0 : ℚ) < t.2.2 := by decide

/-- Every disambiguation result carries a positive boost. -/
theorem eval_phrase_pos (w tl : String) :
    ∀ q ∈ eval_phrase_context w tl, 0 < q.2 := by
  intro q hq
  unfold eval_phrase_context at hq
  cases hpe : phraseEntries w with
  | none => rw [hpe] at hq; simp at hq
  | some entries =>
    rw [hpe] at hq
    rw [List.mem_filterMap] at hq
    obtain ⟨e, he, heq⟩ := hq
    dsimp only at heq
    by_cases hh : 0 < countHits e.1 tl
    · rw [if_pos hh] at heq
      obtain rfl := Option.some.inj heq
      have hmem : ∃ pr ∈ PHRASE_CONTEXT, pr.2 = entries := by
        unfold phraseEntries at hpe
        cases hf : PHRASE_CONTEXT.find? (fun e => e.1 = w) with
        | none => rw [hf] at hpe; simp at hpe
        | some pr =>
          rw [hf] at hpe
          exact ⟨pr, List.mem_of_find?_eq_some hf, by simpa using hpe⟩
      obtain ⟨pr, hpr, rfl⟩ := hmem
      have hb : (0 : ℚ) < e.2.2 := phrase_boosts_pos pr hpr e he
      have hmin : (0 : ℚ) < ((min (countHits e.1 tl) 3 : ℕ) : ℚ) := by
        have : 0 < min (countHits e.1 tl) 3 := by omega
        exact_mod_cast this
      exact mul_pos hb hmin
    · rw [if_neg hh] at heq
      exact absurd heq (by simp)

/-- The best-entry fold either returns its start value or an element of the
list; it never decreases the boost, and it dominates every element. -/
theorem best_phrase_fold (l : List (String × ℚ)) :
    ∀ acc : Option String × ℚ,
      (List.foldl best_phrase_step acc l = acc
        ∨ ∃ tch, List.foldl best_phrase_step acc l =
            (some tch, (List.foldl best_phrase_step acc l).2)
          ∧ (tch, (List.foldl best_phrase_step acc l).2) ∈ l)
      ∧ acc.2 ≤ (List.foldl best_phrase_step acc l).2
      ∧ ∀ q ∈ l, q.2 ≤ (List.foldl best_phrase_step acc l).2 := by
  induction l with
  | nil => intro acc; exact ⟨Or.inl rfl, le_refl _, by simp⟩
  | cons p rest ih =>
    intro acc
    have hstep : acc.2 ≤ (best_phrase_step acc p).2 ∧ p.2 ≤ (best_phrase_step acc p).2 := by
      unfold best_phrase_step
      split_ifs with hgt
      · exact ⟨le_of_lt hgt, le_refl _⟩
      · exact ⟨le_refl _, le_of_not_lt hgt⟩
    obtain ⟨ho, hacc, hall⟩ := ih (best_phrase_step acc p)
    rw [List.foldl_cons]
    refine ⟨?_, le_trans hstep.1 hacc, ?_⟩
    · rcases ho with he | ⟨tch, ht, hm⟩
      · rw [he]
        unfold best_phrase_step
        split_ifs with hgt
        · exact Or.inr ⟨p.1, rfl, by simp⟩
        · exact Or.inl rfl
      · exact Or.inr ⟨tch, ht, List.mem_cons_of_mem _ hm⟩
    · intro q hq
      rcases List.mem_cons.mp hq with rfl | hq
      · exact le_trans hstep.2 hacc
      · exact hall q hq

/-- On a nonempty list of positive boosts, `best_phrase` returns a
maximal list element as the winning target chapter. -/
theorem best_phrase_max (l : List (String × ℚ)) (hpos : ∀ q ∈ l, 0 < q.2)
    (hne : l ≠ []) :
    ∃ tch, best_phrase l = (some tch, (best_phrase l).2)
      ∧ (tch, (best_phrase l).2) ∈ l
      ∧ ∀ q ∈ l, q.2 ≤ (best_phrase l).2 := by
  unfold best_phrase
  obtain ⟨ho, -, hall⟩ := best_phrase_fold l (none, 0)
  rcases ho with he | ⟨tch, ht, hm⟩
  · exfalso
    rcases l with _ | ⟨p, rest⟩
    · exact hne rfl
    · have hp := hpos p (List.mem_cons_self _ _)
      have hle := hall p (List.mem_cons_self _ _)
      rw [he] at hle
      exact absurd (lt_of_lt_of_le hp hle) (lt_irrefl 0)
  · exact ⟨tch, ht, hm, hall⟩

/-- C6: a matched keyword with a nonempty disambiguation result contributes
1 + b when the highest-boost entry's target chapter equals the rule's
chapter and 0.05 otherwise; each result's boost is its entry's base boost
times min(co-occurrence count, 3) with a positive count; the winning entry
is a maximal result; and a keyword with no registered entries, or none with
a co-occurrence hit, yields the empty result. -/
theorem phrase_disambiguation_contribution :
    (∀ (rule_chapter : String) (is_auto : Bool) (text_lower kw : String),
      match_keyword (lowerStr kw) text_lower = true →
      eval_phrase_context (lowerStr kw) text_lower ≠ [] →
      kw_contribution rule_chapter is_auto text_lower kw =
        (if (best_phrase (eval_phrase_context (lowerStr kw) text_lower)).1 = some rule_chapter
         then 1.0 + (best_phrase (eval_phrase_context (lowerStr kw) text_lower)).2
         else 0.05))
    ∧ (∀ (w text_lower : String) (q : String × ℚ), q ∈ eval_phrase_context w text_lower →
        ∃ entries, phraseEntries w = some entries ∧
        ∃ e ∈ entries, q.1 = e.2.1 ∧ 0 < countHits e.1 text_lower ∧
          q.2 = e.2.2 * (min (countHits e.1 text_lower) 3 : ℕ))
    ∧ (∀ (w text_lower : String), eval_phrase_context w text_lower ≠ [] →
        ∃ tch, best_phrase (eval_phrase_context w text_lower) =
            (some tch, (best_phrase (eval_phrase_context w text_lower)).2)
          ∧ (tch, (best_phrase (eval_phrase_context w text_lower)).2)
              ∈ eval_phrase_context w text_lower
          ∧ ∀ q ∈ eval_phrase_context w text_lower,
              q.2 ≤ (best_phrase (eval_phrase_context w text_lower)).2)
    ∧ (∀ (w text_lower : String), phraseEntries w = none →
        eval_phrase_context w text_lower = [])
    ∧ (∀ (w text_lower : String) entries, phraseEntries w = some entries →
        (∀ e ∈ entries, countHits e.1 text_lower = 0) →
        eval_phrase_context w text_lower = []) := by
  refine ⟨?_, ?_, ?_, ?_, ?_⟩
  · intro rule_chapter is_auto text_lower kw h1 h2
    have h2' : (eval_phrase_context (lowerStr kw) text_lower).isEmpty = false := by
      rcases hl : eval_phrase_context (lowerStr kw) text_lower with _ | ⟨a, rest⟩
      · exact absurd hl h2
      · rfl
    unfold kw_contribution
    dsimp only
    rw [h1, h2']
    rfl
  · intro w text_lower q hq
    unfold eval_phrase_context at hq
    cases hpe : phraseEntries w with
    | none => rw [hpe] at hq; simp at hq
    | some entries =>
      rw [hpe] at hq
      rw [List.mem_filterMap] at hq
      obtain ⟨e, he, heq⟩ := hq
      dsimp only at heq
      by_cases hh : 0 < countHits e.1 text_lower
      · rw [if_pos hh] at heq
        obtain rfl := Option.some.inj heq
        exact ⟨entries, rfl, e, he, rfl, hh, rfl⟩
      · rw [if_neg hh] at heq
        exact absurd heq (by simp)
  · intro w text_lower hne
    exact best_phrase_max _ (eval_phrase_pos w text_lower) hne
  · intro w text_lower h
    unfold eval_phrase_context
    rw [h]
  · intro w text_lower entries h hz
    unfold eval_phrase_context
    rw [h]
    rw [List.filterMap_eq_nil_iff]
    intro e he
    dsimp only
    rw [if_neg (by rw [hz e he]; omega)]

/-- Closed instance for C6: in `engine oil cap`, the polysemous keyword
`cap` has two automotive co-occurrence hits (boost 5 × 2 = 10), so an
automotive rule earns 11.0 and a differently-chaptered rule earns 0.05. -/
theorem phrase_disambiguation_contribution_witness :
    eval_phrase_context ("cap") ("engine oil cap") = [("Chapter 87", 10.0)]
    ∧ kw_contribution ("Chapter 87") false ("engine oil cap") ("cap") = 11.0
    ∧ kw_contribution ("Chapter 65") false ("engine oil cap") ("cap") = 0.05 := by
  refine ⟨by decide, by decide, by decide⟩

/-- C7 (amended): the rule score is the keyword score plus the brand-context
boost plus the part-number boost, where the brand boost is: the automotive
support score for automotive brand/rule matches; 5.0 for watch brand/rule
matches; 3.0 for other exact chapter matches only when at least one keyword
matched (a zero keyword score gets no boost); 3.0 to footwear-chapter rules
for shoe-primary apparel brands even with no keyword hit; and 3.0 extra for
chapters 87/84/85 whenever a part-number pattern was detected. -/
theorem score_rule_boost_formula :
    (∀ (r : Rule) (text : String) (ctx : Ctx),
      score_rule r text ctx =
        keyword_score r (lowerStr text) ctx.is_auto
        + brand_context_boost ctx r.chapter (keyword_score r (lowerStr text) ctx.is_auto)
        + part_number_boost ctx r.chapter)
    ∧ (∀ (ctx : Ctx) (rc : String) (base : ℚ),
        ctx.brand_chapter = some ("Chapter 87") → rc = "Chapter 87" →
        brand_context_boost ctx rc base = ctx.auto_boost)
    ∧ (∀ (ctx : Ctx) (base : ℚ), ctx.brand_chapter = some ("Chapter 91") →
        brand_context_boost ctx ("Chapter 91") base = 5.0)
    ∧ (∀ (ctx : Ctx) (rc : String) (base : ℚ), ctx.brand_chapter = some rc →
        rc ≠ "Chapter 87" → rc ≠ "Chapter 91" → 0 < base →
        brand_context_boost ctx rc base = 3.0)
    ∧ (∀ (ctx : Ctx) (rc : String) (base : ℚ), ctx.brand_chapter = some rc →
        rc ≠ "Chapter 87" → rc ≠ "Chapter 91" → ¬ (0 < base) →
        brand_context_boost ctx rc base = 0)
    ∧ (∀ (ctx : Ctx) (bn : String) (base : ℚ),
        ctx.brand_chapter = some ("Chapter 61") → ctx.brand_name = some bn →
        SHOE_PRIMARY_BRANDS.contains bn = true →
        brand_context_boost ctx ("Chapter 64") base = 3.0)
    ∧ (∀ (ctx : Ctx) (rc : String), ctx.has_part_number = true →
        (rc = "Chapter 87" ∨ rc = "Chapter 84" ∨ rc = "Chapter 85") →
        part_number_boost ctx rc = 3.0)
    ∧ (∀ (ctx : Ctx) (rc : String) (base : ℚ), ctx.brand_chapter = none →
        brand_context_boost ctx rc base = 0) := by
  refine ⟨fun r text ctx => rfl, ?_, ?_, ?_, ?_, ?_, ?_, ?_⟩
  · intro ctx rc base h h87
    subst h87
    unfold brand_context_boost
    rw [h]
    rfl
  · intro ctx base h
    unfold brand_context_boost
    rw [h]
    rfl
  · intro ctx rc base h h87 h91 hb
    unfold brand_context_boost
    rw [h]
    dsimp only
    rw [if_neg (fun hc => h87 hc.2), if_neg (fun hc => h91 hc.2),
      if_pos (⟨rfl, hb⟩ : rc = rc ∧ 0 < base)]
  · intro ctx rc base h h87 h91 hb
    unfold brand_context_boost
    rw [h]
    dsimp only
    rw [if_neg (fun hc => h87 hc.2), if_neg (fun hc => h91 hc.2),
      if_neg (fun hc => hb hc.2)]
    by_cases h61 : rc = "Chapter 61" ∧ (rc = "Chapter 61" ∨ rc = "Chapter 62"
        ∨ rc = "Chapter 64" ∨ rc = "Chapter 63" ∨ rc = "Chapter 42")
    · rw [if_pos h61]
      obtain ⟨h611, -⟩ := h61
      subst h611
      cases hbn : ctx.brand_name with
      | none =>
        rw [if_neg hb]
      | some bn =>
        rw [if_neg hb]
        show (if SHOE_PRIMARY_BRANDS.contains bn = true then
            (if ("Chapter 61" : String) = "Chapter 64" then (3.0 : ℚ) else 0)
          else 0) = 0
        rw [if_neg (by decide : ¬ ("Chapter 61" : String) = "Chapter 64"), ite_self]
    · rw [if_neg h61]
  · intro ctx bn base h hbn hsh
    unfold brand_context_boost
    rw [h, hbn]
    show (if SHOE_PRIMARY_BRANDS.contains bn = true then
        (if ("Chapter 64" : String) = "Chapter 64" then (3.0 : ℚ)
         else if 0 < base then 2.0 else 0)
      else if 0 < base then 2.0 else 0) = 3.0
    rw [if_pos hsh]
    rfl
  · intro ctx rc hp hrc
    unfold part_number_boost
    rw [if_pos ⟨hp, hrc⟩]
  · intro ctx rc base h
    unfold brand_context_boost
    rw [h]

/-- Counterexample for C7 as stated: with the brand `samsung` detected
(Chapter 85) and a Chapter 85 rule none of whose keywords matched, no
contextual boost is added — the score stays 0, though brand and rule
chapters match. -/
theorem brand_match_without_keyword_cex :
    (detect_context ("samsung")).brand_chapter = some ("Chapter 85")
    ∧ rule_8517.chapter = "Chapter 85"
    ∧ score_rule rule_8517 ("samsung") (detect_context ("samsung")) = 0 := by
  refine ⟨by decide, by decide, by decide⟩

/-- C5 (amended): each kept candidate is built from one pair of the sorted
fused list, and its confidence label is computed from the resolver result,
the rule's chapter, the candidate's fused score and the detected brand
chapter: resolver-agreeing candidates from the resolver confidence
(high ≥ 70, medium ≥ 40), disagreeing ones forced low at resolver
confidence ≥ 60, and otherwise chapter-aware thresholds on the fused score
(5/3 automotive-matched, 4/2 brand-matched, 3/2 else). -/
theorem confidence_from_fused_score :
    ∀ (name desc : String) (specifics : List (String × String)) (path : String)
      (c : Candidate),
      c ∈ classify_pipeline name desc specifics path →
      c = sentinel_candidate ∨
      ∃ p ∈ pipeline_sorted name desc specifics path,
        c = mk_candidate (pipeline_eb specifics path) (pipeline_ctx name desc) p.1 p.2
        ∧ c.confidence =
            (match pipeline_eb specifics path with
             | some r =>
               if p.2.chapter = r.1 then
                 if r.2.1 ≥ 70.0 then "high" else if r.2.1 ≥ 40.0 then "medium" else "low"
               else if r.2.1 ≥ 60.0 then "low"
               else score_label (pipeline_ctx name desc).brand_chapter p.2.chapter p.1
             | none => score_label (pipeline_ctx name desc).brand_chapter p.2.chapter p.1) := by
  intro name desc specifics path c hc
  unfold classify_pipeline at hc
  split at hc
  · left
    simpa using hc
  · right
    obtain ⟨p, hp, rfl⟩ := pick_candidates_mem _ _ _ _ _ _ hc
    exact ⟨p, hp, rfl, rfl⟩

/-- Closed instance for C5's amended labeling, at the sentinel branch of an
empty input. -/
theorem confidence_from_fused_score_witness :
    sentinel_candidate = sentinel_candidate ∨
      ∃ p ∈ pipeline_sorted ("") ("") [] (""),
        sentinel_candidate = mk_candidate (pipeline_eb [] ("")) (pipeline_ctx ("") ("")) p.1 p.2
        ∧ sentinel_candidate.confidence =
            (match pipeline_eb [] ("") with
             | some r =>
               if p.2.chapter = r.1 then
                 if r.2.1 ≥ 70.0 then "high" else if r.2.1 ≥ 40.0 then "medium" else "low"
               else if r.2.1 ≥ 60.0 then "low"
               else score_label (pipeline_ctx ("") ("")).brand_chapter p.2.chapter p.1
             | none => score_label (pipeline_ctx ("") ("")).brand_chapter p.2.chapter p.1) :=
  confidence_from_fused_score ("") ("") [] ("") sentinel_candidate (by decide)

/-- Counterexample for C5 as stated: with a brand-tier resolver verdict
(Chapter 91, confidence 40 < 60) and the knitwear rule (Chapter 61, raw
keyword score 2.0), the kept candidate is labeled `low` from its halved
fused score 1.0, while the claim's thresholds on the rule's own score 2.0
would give `medium`. -/
theorem confidence_ignores_raw_score_cex :
    (classify_pipeline ("sweater pullover") ("") [("Brand", "Rolex")] ("")).map
        (fun c => (c.hs6, c.chapter, c.confidence)) =
      [("9102.12", "Chapter 91", "medium"), ("6110.20", "Chapter 61", "low")]
    ∧ pipeline_eb [("Brand", "Rolex")] ("") =
        some ("Chapter 91", 40.0, "ブランド: Rolex → Chapter 91")
    ∧ (40.0 : ℚ) < 60.0
    ∧ (pipeline_ctx ("sweater pullover") ("")).brand_chapter = none
    ∧ score_rule rule_6110 (pipeline_combined ("sweater pullover") (""))
        (pipeline_ctx ("sweater pullover") ("")) = 2.0
    ∧ rule_6110.hs6 = "6110.20"
    ∧ rule_6110.chapter = "Chapter 61"
    ∧ score_label none ("Chapter 61") (2.0) = "medium" := by
  refine ⟨by decide, by decide, by norm_num, by decide, by decide, by decide,
    by decide, by decide⟩
